import Mathlib

/-!
Verification of the GUYBAAA marketing-analytics application.

Shallow embedding of the Python sources `app/data_loading.py`, `app/utils.py`
and `app/email_utils.py`.  Pandas DataFrames are modelled as association
lists from column names to lists of cells; Python/NumPy floating-point
values are modelled as extended rationals (a rational, NaN, +inf, -inf),
with IEEE-style special-value propagation for the arithmetic the code
performs.  Elementwise (vectorized) pandas operations are modelled as
`List.map` / `List.zipWith` of the corresponding per-cell function.
Operations that can raise Python exceptions are modelled in
`Except PyError`.
-/

namespace Guybaaa

/-- Python exception kinds raised (or potentially raised) by the modelled code. -/
inductive PyError where
  | nameError
  | indexError
  | keyError
  | typeError
deriving DecidableEq, Repr

/-- One cell of a pandas DataFrame: a finite number, NaN (also the missing-value
sentinel and NaT), +inf, -inf, or a string (object dtype).  Floats are modelled
as exact rationals; dates are modelled as day numbers. -/
inductive Cell where
  | num (q : ℚ)
  | nan
  | pinf
  | ninf
  | str (s : String)
deriving DecidableEq, Repr

def Cell.isStr : Cell → Bool
  | .str _ => true
  | _ => false

def Cell.isNum : Cell → Bool
  | .num _ => true
  | _ => false

def Cell.isNan : Cell → Bool
  | .nan => true
  | _ => false

/-- Addition with IEEE special-value propagation.  Arithmetic on string cells
is outside the modelled domain (pandas raises a TypeError there); theorems
that depend on arithmetic restrict to frames without string cells. -/
def cadd : Cell → Cell → Cell
  | .num a, .num b => .num (a + b)
  | .num _, .pinf => .pinf
  | .num _, .ninf => .ninf
  | .pinf, .num _ => .pinf
  | .ninf, .num _ => .ninf
  | .pinf, .pinf => .pinf
  | .ninf, .ninf => .ninf
  | .pinf, .ninf => .nan
  | .ninf, .pinf => .nan
  | _, _ => .nan

/-- Subtraction with IEEE special-value propagation. -/
def csub : Cell → Cell → Cell
  | .num a, .num b => .num (a - b)
  | .num _, .pinf => .ninf
  | .num _, .ninf => .pinf
  | .pinf, .num _ => .pinf
  | .ninf, .num _ => .ninf
  | .pinf, .ninf => .pinf
  | .ninf, .pinf => .ninf
  | .pinf, .pinf => .nan
  | .ninf, .ninf => .nan
  | _, _ => .nan

/-- Multiplication with IEEE special-value propagation (inf * 0 = NaN). -/
def cmul : Cell → Cell → Cell
  | .num a, .num b => .num (a * b)
  | .num a, .pinf => if 0 < a then .pinf else if a < 0 then .ninf else .nan
  | .num a, .ninf => if 0 < a then .ninf else if a < 0 then .pinf else .nan
  | .pinf, .num b => if 0 < b then .pinf else if b < 0 then .ninf else .nan
  | .ninf, .num b => if 0 < b then .ninf else if b < 0 then .pinf else .nan
  | .pinf, .pinf => .pinf
  | .ninf, .ninf => .pinf
  | .pinf, .ninf => .ninf
  | .ninf, .pinf => .ninf
  | _, _ => .nan

/-- Division with IEEE special-value propagation.  NumPy/pandas vectorized
division by zero yields ±inf for a nonzero numerator and NaN for 0/0
(a RuntimeWarning, never an exception). -/
def cdiv : Cell → Cell → Cell
  | .num a, .num b =>
      if b = 0 then (if 0 < a then .pinf else if a < 0 then .ninf else .nan)
      else .num (a / b)
  | .num _, .pinf => .num 0
  | .num _, .ninf => .num 0
  | .pinf, .num b => if b < 0 then .ninf else .pinf
  | .ninf, .num b => if b < 0 then .pinf else .ninf
  | _, _ => .nan

/-- Round half to even (the IEEE/NumPy rounding rule used by `.round(n)`). -/
def rhe (q : ℚ) : ℤ :=
  let f := ⌊q⌋
  if q - f < 1/2 then f
  else if (1 : ℚ)/2 < q - f then f + 1
  else if f % 2 = 0 then f else f + 1

/-- Round a rational to `p` decimal places, half to even. -/
def roundTo (p : ℕ) (q : ℚ) : ℚ := (rhe (q * 10 ^ p) : ℚ) / 10 ^ p

/-- `.round(p)`: NaN and ±inf round to themselves.  (On string cells pandas
would raise; string cells are outside the arithmetic domain.) -/
def cround (p : ℕ) : Cell → Cell
  | .num q => .num (roundTo p q)
  | c => c

/-- `.replace([np.inf, -np.inf], np.nan)` applied to one cell. -/
def creplaceInf : Cell → Cell
  | .pinf => .nan
  | .ninf => .nan
  | c => c

/-- Elementwise `<` used by pandas comparisons between a cell and a number. -/
def cellLtB : Cell → Cell → Bool
  | .num a, .num b => a < b
  | .num _, .pinf => true
  | .ninf, .num _ => true
  | .ninf, .pinf => true
  | _, _ => false

/-- A column of a DataFrame. -/
abbrev Col := List Cell

/-- A DataFrame: ordered association list from column names to columns.
Column order is the pandas column order. -/
abbrev DataFrame := List (String × Col)

/-- `c in df.columns`. -/
def hasCol : DataFrame → String → Bool
  | [], _ => false
  | p :: rest, c => p.1 == c || hasCol rest c

/-- `df[c]` as an option (first column with that name, pandas lookup). -/
def getCol : DataFrame → String → Option Col
  | [], _ => none
  | p :: rest, c => if p.1 == c then some p.2 else getCol rest c

def getColD (df : DataFrame) (c : String) : Col :=
  (getCol df c).getD []

/-- Replace every column named `c` by `v`, keeping positions. -/
def replaceCol : DataFrame → String → Col → DataFrame
  | [], _, _ => []
  | p :: rest, c, v => (if p.1 == c then (c, v) else p) :: replaceCol rest c v

/-- `df[c] = v`: replace the column in place if present (pandas keeps the
column position), otherwise append it as the last column. -/
def setCol (df : DataFrame) (c : String) (v : Col) : DataFrame :=
  if hasCol df c then replaceCol df c v
  else df ++ [(c, v)]

def colNames (df : DataFrame) : List String := df.map (·.1)

/-- `len(df)`: the number of rows (length of the first column; 0 if there
are no columns). -/
def nRows (df : DataFrame) : ℕ :=
  match df with
  | [] => 0
  | (_, col) :: _ => col.length

/-! ### Basic lemmas about DataFrame operations -/

theorem getCol_replaceCol_self (df : DataFrame) (c : String) (v : Col)
    (h : hasCol df c = true) : getCol (replaceCol df c v) c = some v := by
  induction df with
  | nil => simp [hasCol] at h
  | cons p rest ih =>
    by_cases hp : p.1 == c
    · simp [replaceCol, getCol, hp]
    · simp only [hasCol, hp, Bool.false_or] at h
      simp [replaceCol, getCol, hp, ih h]

theorem getCol_append_single_self (df : DataFrame) (c : String) (v : Col)
    (h : hasCol df c = false) : getCol (df ++ [(c, v)]) c = some v := by
  induction df with
  | nil => simp [getCol]
  | cons p rest ih =>
    simp only [hasCol, Bool.or_eq_false_iff] at h
    simp [getCol, h.1, ih h.2]

theorem getCol_setCol_self (df : DataFrame) (c : String) (v : Col) :
    getCol (setCol df c v) c = some v := by
  unfold setCol
  by_cases h : hasCol df c
  · simp [h, getCol_replaceCol_self df c v h]
  · simp only [h, Bool.false_eq_true, if_false]
    exact getCol_append_single_self df c v (by simpa using h)

theorem getCol_replaceCol_ne (df : DataFrame) {c c' : String} (v : Col)
    (h : c' ≠ c) : getCol (replaceCol df c v) c' = getCol df c' := by
  induction df with
  | nil => simp [replaceCol]
  | cons p rest ih =>
    by_cases hp : p.1 == c
    · have hpc : p.1 = c := by simpa using hp
      have h1 : (c == c') = false := by
        simp only [beq_eq_false_iff_ne, ne_eq]
        exact fun hcc => h hcc.symm
      have h2 : (p.1 == c') = false := by rw [hpc]; exact h1
      simp [replaceCol, getCol, hp, h1, h2, ih]
    · simp only [replaceCol, hp, Bool.false_eq_true, if_false]
      by_cases hpc' : p.1 == c'
      · simp [getCol, hpc']
      · simp [getCol, hpc', ih]

theorem getCol_append_single_ne (df : DataFrame) {c c' : String} (v : Col)
    (h : c' ≠ c) : getCol (df ++ [(c, v)]) c' = getCol df c' := by
  induction df with
  | nil =>
    have h1 : (c == c') = false := by
      simp only [beq_eq_false_iff_ne, ne_eq]
      exact fun hcc => h hcc.symm
    simp [getCol, h1]
  | cons p rest ih =>
    by_cases hpc' : p.1 == c'
    · simp [getCol, hpc']
    · simp [getCol, hpc', ih]

theorem getCol_setCol_ne (df : DataFrame) {c c' : String} (v : Col)
    (h : c' ≠ c) : getCol (setCol df c v) c' = getCol df c' := by
  unfold setCol
  by_cases hc : hasCol df c
  · simp [hc, getCol_replaceCol_ne df v h]
  · simp [hc, getCol_append_single_ne df v h]

theorem hasCol_replaceCol_ne (df : DataFrame) {c c' : String} (v : Col)
    (h : c' ≠ c) : hasCol (replaceCol df c v) c' = hasCol df c' := by
  induction df with
  | nil => simp [replaceCol]
  | cons p rest ih =>
    by_cases hp : p.1 == c
    · have hpc : p.1 = c := by simpa using hp
      have h1 : (c == c') = false := by
        simp only [beq_eq_false_iff_ne, ne_eq]
        exact fun hcc => h hcc.symm
      have h2 : (p.1 == c') = false := by rw [hpc]; exact h1
      simp [replaceCol, hasCol, hp, h1, h2, ih]
    · simp only [replaceCol, hp, Bool.false_eq_true, if_false]
      simp [hasCol, ih]

theorem hasCol_append (df df' : DataFrame) (c : String) :
    hasCol (df ++ df') c = (hasCol df c || hasCol df' c) := by
  induction df with
  | nil => simp [hasCol]
  | cons p rest ih => simp [hasCol, ih, Bool.or_assoc]

theorem hasCol_setCol_ne (df : DataFrame) {c c' : String} (v : Col)
    (h : c' ≠ c) : hasCol (setCol df c v) c' = hasCol df c' := by
  unfold setCol
  by_cases hc : hasCol df c
  · simp [hc, hasCol_replaceCol_ne df v h]
  · have h1 : (c == c') = false := by
      simp only [beq_eq_false_iff_ne, ne_eq]
      exact fun hcc => h hcc.symm
    simp [hc, hasCol_append, hasCol, h1]

theorem hasCol_of_getCol_some {df : DataFrame} {c : String} {v : Col}
    (h : getCol df c = some v) : hasCol df c = true := by
  induction df with
  | nil => simp [getCol] at h
  | cons p rest ih =>
    by_cases hp : p.1 == c
    · simp [hasCol, hp]
    · simp only [getCol, hp, Bool.false_eq_true, if_false] at h
      simp [hasCol, hp, ih h]

theorem hasCol_setCol_self (df : DataFrame) (c : String) (v : Col) :
    hasCol (setCol df c v) c = true :=
  hasCol_of_getCol_some (getCol_setCol_self df c v)

/-- Every column named `c` holds the value `v`. -/
def allNamed (df : DataFrame) (c : String) (v : Col) : Prop :=
  ∀ p ∈ df, p.1 = c → p.2 = v

theorem allNamed_replaceCol_self (df : DataFrame) (c : String) (v : Col) :
    allNamed (replaceCol df c v) c v := by
  induction df with
  | nil => intro p hp; simp [replaceCol] at hp
  | cons q rest ih =>
    intro p hp hpc
    simp only [replaceCol, List.mem_cons] at hp
    rcases hp with hp | hp
    · by_cases hq : q.1 == c
      · simp only [hq, if_true] at hp; rw [hp]
      · simp only [hq, Bool.false_eq_true, if_false] at hp
        rw [hp] at hpc
        exact absurd hpc (by simpa using hq)
    · exact ih p hp hpc

theorem hasCol_of_mem {df : DataFrame} {p : String × Col} (hp : p ∈ df)
    {c : String} (hpc : p.1 = c) : hasCol df c = true := by
  induction df with
  | nil => simp at hp
  | cons q rest ih =>
    rcases List.mem_cons.mp hp with hq | hq
    · rw [hq] at hpc
      simp [hasCol, hpc]
    · simp [hasCol, ih hq]

theorem allNamed_setCol_self (df : DataFrame) (c : String) (v : Col) :
    allNamed (setCol df c v) c v := by
  unfold setCol
  by_cases h : hasCol df c
  · simpa [h] using allNamed_replaceCol_self df c v
  · simp only [h, Bool.false_eq_true, if_false]
    intro p hp hpc
    rcases List.mem_append.mp hp with hp | hp
    · exact absurd (hasCol_of_mem hp hpc) h
    · simp at hp; rw [hp]

theorem allNamed_replaceCol_ne {df : DataFrame} {c : String} {v : Col}
    (h : allNamed df c v) {c' : String} (hne : c' ≠ c) (w : Col) :
    allNamed (replaceCol df c' w) c v := by
  induction df with
  | nil => intro p hp; simp [replaceCol] at hp
  | cons q rest ih =>
    intro p hp hpc
    simp only [replaceCol, List.mem_cons] at hp
    rcases hp with hp | hp
    · by_cases hq : q.1 == c'
      · rw [hp] at hpc
        simp only [hq, if_true] at hpc
        exact absurd hpc hne
      · simp only [hq, Bool.false_eq_true, if_false] at hp
        exact h p (by simp [hp]) hpc
    · exact ih (fun r hr => h r (by simp [hr])) p hp hpc

theorem allNamed_setCol_ne {df : DataFrame} {c : String} {v : Col}
    (h : allNamed df c v) {c' : String} (hne : c' ≠ c) (w : Col) :
    allNamed (setCol df c' w) c v := by
  unfold setCol
  by_cases hc : hasCol df c'
  · simpa [hc] using allNamed_replaceCol_ne h hne w
  · simp only [hc, Bool.false_eq_true, if_false]
    intro p hp hpc
    rcases List.mem_append.mp hp with hp | hp
    · exact h p hp hpc
    · simp at hp
      rw [hp] at hpc
      simp at hpc
      exact absurd hpc hne

theorem replaceCol_noop {df : DataFrame} {c : String} {v : Col}
    (h : allNamed df c v) : replaceCol df c v = df := by
  induction df with
  | nil => simp [replaceCol]
  | cons q rest ih =>
    by_cases hq : q.1 == c
    · have hqc : q.1 = c := by simpa using hq
      have hv : q.2 = v := h q (by simp) hqc
      have : (c, v) = q := by rw [← hqc, ← hv]
      simp [replaceCol, hq, this, ih (fun r hr => h r (by simp [hr]))]
    · simp [replaceCol, hq, ih (fun r hr => h r (by simp [hr]))]

theorem setCol_noop {df : DataFrame} {c : String} {v : Col}
    (hc : hasCol df c = true) (h : allNamed df c v) : setCol df c v = df := by
  unfold setCol
  simp [hc, replaceCol_noop h]

/-- Elementwise access into a vectorized binary operation. -/
theorem zipWith_getElem? {α : Type} (f : α → α → α) (a b : List α) (i : ℕ)
    {x y : α} (ha : a[i]? = some x) (hb : b[i]? = some y) :
    (List.zipWith f a b)[i]? = some (f x y) := by
  induction a generalizing b i with
  | nil => simp at ha
  | cons u us ih =>
    cases b with
    | nil => simp at hb
    | cons w ws =>
      cases i with
      | zero =>
        simp at ha hb
        simp [List.zipWith, ha, hb]
      | succ j =>
        simp at ha hb
        simpa [List.zipWith] using ih ws j ha hb

/-!
### Derived Metric Calculator

`DataProcessor.calculate_derived_metrics` (utils.py lines 565-587) and
`DataLoader.add_derived_columns` (data_loading.py lines 72-100).
Each pandas column expression, e.g.
`((df['revenue'] - df['spend']) / df['spend'] * 100).round(2)`,
is a composition of elementwise operations and is modelled as a single
`zipWith` of the composed per-cell function.
-/

/-- `((revenue - spend) / spend * 100).round(2)` for one row. -/
def roiCell (rev sp : Cell) : Cell :=
  cround 2 (cmul (cdiv (csub rev sp) sp) (.num 100))

/-- `(clicks / impressions * 100).round(4)` for one row. -/
def ctrCell (cl im : Cell) : Cell :=
  cround 4 (cmul (cdiv cl im) (.num 100))

/-- `(spend / conversions).round(2)` followed by
`.replace([np.inf, -np.inf], np.nan)` for one row. -/
def cpaCell (sp cv : Cell) : Cell :=
  creplaceInf (cround 2 (cdiv sp cv))

/-- `(revenue / spend).round(2)` for one row. -/
def roasCell (rev sp : Cell) : Cell :=
  cround 2 (cdiv rev sp)

/-- `(end_date - start_date).dt.days` for one row (dates are day numbers;
the `.days` field of a timedelta is its floor in whole days). -/
def durCell (e s : Cell) : Cell :=
  match csub e s with
  | .num q => .num (q.floor : ℤ)
  | c => c

/-- `DataProcessor.calculate_derived_metrics`, step 1: ROI.  Note there is no
"only if absent" guard: the column is (re)computed whenever the source columns
exist, overwriting any caller-supplied values. -/
def cdm1 (df : DataFrame) : DataFrame :=
  if hasCol df "revenue" && hasCol df "spend" then
    setCol df "roi" (List.zipWith roiCell (getColD df "revenue") (getColD df "spend"))
  else df

/-- `calculate_derived_metrics`, step 2: CTR. -/
def cdm2 (df : DataFrame) : DataFrame :=
  if hasCol df "clicks" && hasCol df "impressions" then
    setCol df "ctr" (List.zipWith ctrCell (getColD df "clicks") (getColD df "impressions"))
  else df

/-- `calculate_derived_metrics`, step 3: CPA (with inf replaced by NaN). -/
def cdm3 (df : DataFrame) : DataFrame :=
  if hasCol df "spend" && hasCol df "conversions" then
    setCol df "cpa" (List.zipWith cpaCell (getColD df "spend") (getColD df "conversions"))
  else df

/-- `calculate_derived_metrics`, step 4: ROAS. -/
def cdm4 (df : DataFrame) : DataFrame :=
  if hasCol df "revenue" && hasCol df "spend" then
    setCol df "roas" (List.zipWith roasCell (getColD df "revenue") (getColD df "spend"))
  else df

/-- `DataProcessor.calculate_derived_metrics` (utils.py 565-587): works on a
copy of the frame (modelled by purity) and computes roi, ctr, cpa, roas in
sequence. -/
def calculate_derived_metrics (df : DataFrame) : DataFrame :=
  cdm4 (cdm3 (cdm2 (cdm1 df)))

/-- `DataLoader.add_derived_columns`, step 1: ROI only if absent. -/
def adc1 (df : DataFrame) : DataFrame :=
  if !hasCol df "roi" && hasCol df "revenue" && hasCol df "spend" then
    setCol df "roi" (List.zipWith roiCell (getColD df "revenue") (getColD df "spend"))
  else df

/-- `add_derived_columns`, step 2: CTR only if absent. -/
def adc2 (df : DataFrame) : DataFrame :=
  if !hasCol df "ctr" && hasCol df "clicks" && hasCol df "impressions" then
    setCol df "ctr" (List.zipWith ctrCell (getColD df "clicks") (getColD df "impressions"))
  else df

/-- `add_derived_columns`, step 3: engagement rate defaults to the ctr column
when absent (`df['engagement_rate'] = df['ctr']`; the guard guarantees ctr
exists at this point). -/
def adc3 (df : DataFrame) : DataFrame :=
  if !hasCol df "engagement_rate" && hasCol df "clicks" && hasCol df "impressions" then
    setCol df "engagement_rate" (getColD df "ctr")
  else df

/-- `add_derived_columns`, step 4: campaign duration.  Note there is no
"only if absent" guard on this one: it is recomputed whenever both date
columns are present. -/
def adc4 (df : DataFrame) : DataFrame :=
  if hasCol df "start_date" && hasCol df "end_date" then
    setCol df "campaign_duration"
      (List.zipWith durCell (getColD df "end_date") (getColD df "start_date"))
  else df

/-- `add_derived_columns`, step 5: CPA only if absent (with inf replaced by NaN). -/
def adc5 (df : DataFrame) : DataFrame :=
  if !hasCol df "cpa" && hasCol df "spend" && hasCol df "conversions" then
    setCol df "cpa" (List.zipWith cpaCell (getColD df "spend") (getColD df "conversions"))
  else df

/-- `DataLoader.add_derived_columns` (data_loading.py 72-100).  The
try/except wrapper never fires on the numeric frames in the modelled domain
(no modelled step raises), so it is not represented. -/
def add_derived_columns (df : DataFrame) : DataFrame :=
  adc5 (adc4 (adc3 (adc2 (adc1 df))))

/-! Preservation lemmas: each step only writes its own target column. -/

theorem getCol_cdm1_ne (df : DataFrame) {c : String} (h : c ≠ "roi") :
    getCol (cdm1 df) c = getCol df c := by
  unfold cdm1; split
  · exact getCol_setCol_ne df _ h
  · rfl

theorem getCol_cdm2_ne (df : DataFrame) {c : String} (h : c ≠ "ctr") :
    getCol (cdm2 df) c = getCol df c := by
  unfold cdm2; split
  · exact getCol_setCol_ne df _ h
  · rfl

theorem getCol_cdm3_ne (df : DataFrame) {c : String} (h : c ≠ "cpa") :
    getCol (cdm3 df) c = getCol df c := by
  unfold cdm3; split
  · exact getCol_setCol_ne df _ h
  · rfl

theorem getCol_cdm4_ne (df : DataFrame) {c : String} (h : c ≠ "roas") :
    getCol (cdm4 df) c = getCol df c := by
  unfold cdm4; split
  · exact getCol_setCol_ne df _ h
  · rfl

theorem hasCol_cdm1_ne (df : DataFrame) {c : String} (h : c ≠ "roi") :
    hasCol (cdm1 df) c = hasCol df c := by
  unfold cdm1; split
  · exact hasCol_setCol_ne df _ h
  · rfl

theorem hasCol_cdm2_ne (df : DataFrame) {c : String} (h : c ≠ "ctr") :
    hasCol (cdm2 df) c = hasCol df c := by
  unfold cdm2; split
  · exact hasCol_setCol_ne df _ h
  · rfl

theorem hasCol_cdm3_ne (df : DataFrame) {c : String} (h : c ≠ "cpa") :
    hasCol (cdm3 df) c = hasCol df c := by
  unfold cdm3; split
  · exact hasCol_setCol_ne df _ h
  · rfl

theorem hasCol_cdm4_ne (df : DataFrame) {c : String} (h : c ≠ "roas") :
    hasCol (cdm4 df) c = hasCol df c := by
  unfold cdm4; split
  · exact hasCol_setCol_ne df _ h
  · rfl

theorem allNamed_cdm2 {df : DataFrame} {c : String} {v : Col}
    (h : allNamed df c v) (hne : c ≠ "ctr") : allNamed (cdm2 df) c v := by
  unfold cdm2; split
  · exact allNamed_setCol_ne h (Ne.symm hne) _
  · exact h

theorem allNamed_cdm3 {df : DataFrame} {c : String} {v : Col}
    (h : allNamed df c v) (hne : c ≠ "cpa") : allNamed (cdm3 df) c v := by
  unfold cdm3; split
  · exact allNamed_setCol_ne h (Ne.symm hne) _
  · exact h

theorem allNamed_cdm4 {df : DataFrame} {c : String} {v : Col}
    (h : allNamed df c v) (hne : c ≠ "roas") : allNamed (cdm4 df) c v := by
  unfold cdm4; split
  · exact allNamed_setCol_ne h (Ne.symm hne) _
  · exact h

theorem getCol_adc1_ne (df : DataFrame) {c : String} (h : c ≠ "roi") :
    getCol (adc1 df) c = getCol df c := by
  unfold adc1; split
  · exact getCol_setCol_ne df _ h
  · rfl

theorem getCol_adc2_ne (df : DataFrame) {c : String} (h : c ≠ "ctr") :
    getCol (adc2 df) c = getCol df c := by
  unfold adc2; split
  · exact getCol_setCol_ne df _ h
  · rfl

theorem getCol_adc3_ne (df : DataFrame) {c : String} (h : c ≠ "engagement_rate") :
    getCol (adc3 df) c = getCol df c := by
  unfold adc3; split
  · exact getCol_setCol_ne df _ h
  · rfl

theorem getCol_adc4_ne (df : DataFrame) {c : String} (h : c ≠ "campaign_duration") :
    getCol (adc4 df) c = getCol df c := by
  unfold adc4; split
  · exact getCol_setCol_ne df _ h
  · rfl

theorem getCol_adc5_ne (df : DataFrame) {c : String} (h : c ≠ "cpa") :
    getCol (adc5 df) c = getCol df c := by
  unfold adc5; split
  · exact getCol_setCol_ne df _ h
  · rfl

theorem hasCol_adc1_ne (df : DataFrame) {c : String} (h : c ≠ "roi") :
    hasCol (adc1 df) c = hasCol df c := by
  unfold adc1; split
  · exact hasCol_setCol_ne df _ h
  · rfl

theorem hasCol_adc2_ne (df : DataFrame) {c : String} (h : c ≠ "ctr") :
    hasCol (adc2 df) c = hasCol df c := by
  unfold adc2; split
  · exact hasCol_setCol_ne df _ h
  · rfl

theorem hasCol_adc3_ne (df : DataFrame) {c : String} (h : c ≠ "engagement_rate") :
    hasCol (adc3 df) c = hasCol df c := by
  unfold adc3; split
  · exact hasCol_setCol_ne df _ h
  · rfl

theorem hasCol_adc4_ne (df : DataFrame) {c : String} (h : c ≠ "campaign_duration") :
    hasCol (adc4 df) c = hasCol df c := by
  unfold adc4; split
  · exact hasCol_setCol_ne df _ h
  · rfl

theorem hasCol_adc5_ne (df : DataFrame) {c : String} (h : c ≠ "cpa") :
    hasCol (adc5 df) c = hasCol df c := by
  unfold adc5; split
  · exact hasCol_setCol_ne df _ h
  · rfl

theorem allNamed_adc5 {df : DataFrame} {c : String} {v : Col}
    (h : allNamed df c v) (hne : c ≠ "cpa") : allNamed (adc5 df) c v := by
  unfold adc5; split
  · exact allNamed_setCol_ne h (Ne.symm hne) _
  · exact h

theorem getColD_congr {df df' : DataFrame} {c : String}
    (h : getCol df c = getCol df' c) : getColD df c = getColD df' c := by
  unfold getColD; rw [h]

theorem hasCol_eq_isSome_getCol (df : DataFrame) (c : String) :
    hasCol df c = (getCol df c).isSome := by
  induction df with
  | nil => simp [hasCol, getCol]
  | cons p rest ih =>
    by_cases hp : p.1 == c
    · simp [hasCol, getCol, hp]
    · simp [hasCol, getCol, hp, ih]

theorem hasCol_of_eq_getCol {df df' : DataFrame} {c : String}
    (h : getCol df c = getCol df' c) : hasCol df c = hasCol df' c := by
  rw [hasCol_eq_isSome_getCol, hasCol_eq_isSome_getCol, h]

/-! Idempotence of the two derived-metric functions.  A second application
recomputes each derived column from source columns that the first
application did not touch, so it rewrites each column with the value it
already holds. -/

theorem cdm1_second (df : DataFrame) :
    cdm1 (calculate_derived_metrics df) = calculate_derived_metrics df := by
  have hrev : getCol (calculate_derived_metrics df) "revenue" = getCol df "revenue" := by
    unfold calculate_derived_metrics
    rw [getCol_cdm4_ne _ (by decide), getCol_cdm3_ne _ (by decide),
      getCol_cdm2_ne _ (by decide), getCol_cdm1_ne _ (by decide)]
  have hsp : getCol (calculate_derived_metrics df) "spend" = getCol df "spend" := by
    unfold calculate_derived_metrics
    rw [getCol_cdm4_ne _ (by decide), getCol_cdm3_ne _ (by decide),
      getCol_cdm2_ne _ (by decide), getCol_cdm1_ne _ (by decide)]
  unfold cdm1
  rw [hasCol_of_eq_getCol hrev, hasCol_of_eq_getCol hsp,
    getColD_congr hrev, getColD_congr hsp]
  by_cases hg : (hasCol df "revenue" && hasCol df "spend") = true
  · simp only [hg, if_true]
    have hd1 : cdm1 df = setCol df "roi"
        (List.zipWith roiCell (getColD df "revenue") (getColD df "spend")) := by
      unfold cdm1; rw [if_pos hg]
    have hAll : allNamed (calculate_derived_metrics df) "roi"
        (List.zipWith roiCell (getColD df "revenue") (getColD df "spend")) := by
      unfold calculate_derived_metrics
      refine allNamed_cdm4 (allNamed_cdm3 (allNamed_cdm2 ?_ (by decide)) (by decide)) (by decide)
      rw [hd1]; exact allNamed_setCol_self _ _ _
    have hHas : hasCol (calculate_derived_metrics df) "roi" = true := by
      unfold calculate_derived_metrics
      rw [hasCol_cdm4_ne _ (by decide), hasCol_cdm3_ne _ (by decide),
        hasCol_cdm2_ne _ (by decide), hd1]
      exact hasCol_setCol_self _ _ _
    exact setCol_noop hHas hAll
  · simp [hg]

theorem cdm2_second (df : DataFrame) :
    cdm2 (calculate_derived_metrics df) = calculate_derived_metrics df := by
  have hcl : getCol (calculate_derived_metrics df) "clicks" = getCol df "clicks" := by
    unfold calculate_derived_metrics
    rw [getCol_cdm4_ne _ (by decide), getCol_cdm3_ne _ (by decide),
      getCol_cdm2_ne _ (by decide), getCol_cdm1_ne _ (by decide)]
  have him : getCol (calculate_derived_metrics df) "impressions" = getCol df "impressions" := by
    unfold calculate_derived_metrics
    rw [getCol_cdm4_ne _ (by decide), getCol_cdm3_ne _ (by decide),
      getCol_cdm2_ne _ (by decide), getCol_cdm1_ne _ (by decide)]
  unfold cdm2
  rw [hasCol_of_eq_getCol hcl, hasCol_of_eq_getCol him,
    getColD_congr hcl, getColD_congr him]
  by_cases hg : (hasCol df "clicks" && hasCol df "impressions") = true
  · simp only [hg, if_true]
    have hcl1 : getCol (cdm1 df) "clicks" = getCol df "clicks" :=
      getCol_cdm1_ne _ (by decide)
    have him1 : getCol (cdm1 df) "impressions" = getCol df "impressions" :=
      getCol_cdm1_ne _ (by decide)
    have hd2 : cdm2 (cdm1 df) = setCol (cdm1 df) "ctr"
        (List.zipWith ctrCell (getColD df "clicks") (getColD df "impressions")) := by
      unfold cdm2
      rw [hasCol_of_eq_getCol hcl1, hasCol_of_eq_getCol him1,
        getColD_congr hcl1, getColD_congr him1, if_pos hg]
    have hAll : allNamed (calculate_derived_metrics df) "ctr"
        (List.zipWith ctrCell (getColD df "clicks") (getColD df "impressions")) := by
      unfold calculate_derived_metrics
      refine allNamed_cdm4 (allNamed_cdm3 ?_ (by decide)) (by decide)
      rw [hd2]; exact allNamed_setCol_self _ _ _
    have hHas : hasCol (calculate_derived_metrics df) "ctr" = true := by
      unfold calculate_derived_metrics
      rw [hasCol_cdm4_ne _ (by decide), hasCol_cdm3_ne _ (by decide), hd2]
      exact hasCol_setCol_self _ _ _
    exact setCol_noop hHas hAll
  · simp [hg]

theorem cdm3_second (df : DataFrame) :
    cdm3 (calculate_derived_metrics df) = calculate_derived_metrics df := by
  have hsp : getCol (calculate_derived_metrics df) "spend" = getCol df "spend" := by
    unfold calculate_derived_metrics
    rw [getCol_cdm4_ne _ (by decide), getCol_cdm3_ne _ (by decide),
      getCol_cdm2_ne _ (by decide), getCol_cdm1_ne _ (by decide)]
  have hcv : getCol (calculate_derived_metrics df) "conversions" = getCol df "conversions" := by
    unfold calculate_derived_metrics
    rw [getCol_cdm4_ne _ (by decide), getCol_cdm3_ne _ (by decide),
      getCol_cdm2_ne _ (by decide), getCol_cdm1_ne _ (by decide)]
  unfold cdm3
  rw [hasCol_of_eq_getCol hsp, hasCol_of_eq_getCol hcv,
    getColD_congr hsp, getColD_congr hcv]
  by_cases hg : (hasCol df "spend" && hasCol df "conversions") = true
  · simp only [hg, if_true]
    have hsp2 : getCol (cdm2 (cdm1 df)) "spend" = getCol df "spend" := by
      rw [getCol_cdm2_ne _ (by decide), getCol_cdm1_ne _ (by decide)]
    have hcv2 : getCol (cdm2 (cdm1 df)) "conversions" = getCol df "conversions" := by
      rw [getCol_cdm2_ne _ (by decide), getCol_cdm1_ne _ (by decide)]
    have hd3 : cdm3 (cdm2 (cdm1 df)) = setCol (cdm2 (cdm1 df)) "cpa"
        (List.zipWith cpaCell (getColD df "spend") (getColD df "conversions")) := by
      unfold cdm3
      rw [hasCol_of_eq_getCol hsp2, hasCol_of_eq_getCol hcv2,
        getColD_congr hsp2, getColD_congr hcv2, if_pos hg]
    have hAll : allNamed (calculate_derived_metrics df) "cpa"
        (List.zipWith cpaCell (getColD df "spend") (getColD df "conversions")) := by
      unfold calculate_derived_metrics
      refine allNamed_cdm4 ?_ (by decide)
      rw [hd3]; exact allNamed_setCol_self _ _ _
    have hHas : hasCol (calculate_derived_metrics df) "cpa" = true := by
      unfold calculate_derived_metrics
      rw [hasCol_cdm4_ne _ (by decide), hd3]
      exact hasCol_setCol_self _ _ _
    exact setCol_noop hHas hAll
  · simp [hg]

theorem cdm4_second (df : DataFrame) :
    cdm4 (calculate_derived_metrics df) = calculate_derived_metrics df := by
  have hrev : getCol (calculate_derived_metrics df) "revenue" = getCol df "revenue" := by
    unfold calculate_derived_metrics
    rw [getCol_cdm4_ne _ (by decide), getCol_cdm3_ne _ (by decide),
      getCol_cdm2_ne _ (by decide), getCol_cdm1_ne _ (by decide)]
  have hsp : getCol (calculate_derived_metrics df) "spend" = getCol df "spend" := by
    unfold calculate_derived_metrics
    rw [getCol_cdm4_ne _ (by decide), getCol_cdm3_ne _ (by decide),
      getCol_cdm2_ne _ (by decide), getCol_cdm1_ne _ (by decide)]
  unfold cdm4
  rw [hasCol_of_eq_getCol hrev, hasCol_of_eq_getCol hsp,
    getColD_congr hrev, getColD_congr hsp]
  by_cases hg : (hasCol df "revenue" && hasCol df "spend") = true
  · simp only [hg, if_true]
    have hrev3 : getCol (cdm3 (cdm2 (cdm1 df))) "revenue" = getCol df "revenue" := by
      rw [getCol_cdm3_ne _ (by decide), getCol_cdm2_ne _ (by decide),
        getCol_cdm1_ne _ (by decide)]
    have hsp3 : getCol (cdm3 (cdm2 (cdm1 df))) "spend" = getCol df "spend" := by
      rw [getCol_cdm3_ne _ (by decide), getCol_cdm2_ne _ (by decide),
        getCol_cdm1_ne _ (by decide)]
    have hd4 : calculate_derived_metrics df = setCol (cdm3 (cdm2 (cdm1 df))) "roas"
        (List.zipWith roasCell (getColD df "revenue") (getColD df "spend")) := by
      unfold calculate_derived_metrics cdm4
      rw [hasCol_of_eq_getCol hrev3, hasCol_of_eq_getCol hsp3,
        getColD_congr hrev3, getColD_congr hsp3, if_pos hg]
    have hAll : allNamed (calculate_derived_metrics df) "roas"
        (List.zipWith roasCell (getColD df "revenue") (getColD df "spend")) := by
      rw [hd4]; exact allNamed_setCol_self _ _ _
    have hHas : hasCol (calculate_derived_metrics df) "roas" = true := by
      rw [hd4]; exact hasCol_setCol_self _ _ _
    exact setCol_noop hHas hAll
  · simp [hg]

/-- `DataProcessor.calculate_derived_metrics` is idempotent: a second
application recomputes roi, ctr, cpa, roas from unchanged source columns. -/
theorem calculate_derived_metrics_idem (df : DataFrame) :
    calculate_derived_metrics (calculate_derived_metrics df)
      = calculate_derived_metrics df := by
  show cdm4 (cdm3 (cdm2 (cdm1 (calculate_derived_metrics df))))
      = calculate_derived_metrics df
  rw [cdm1_second df, cdm2_second df, cdm3_second df, cdm4_second df]

theorem adc1_second (df : DataFrame) :
    adc1 (add_derived_columns df) = add_derived_columns df := by
  have hrev : hasCol (add_derived_columns df) "revenue" = hasCol df "revenue" := by
    unfold add_derived_columns
    rw [hasCol_adc5_ne _ (by decide), hasCol_adc4_ne _ (by decide),
      hasCol_adc3_ne _ (by decide), hasCol_adc2_ne _ (by decide),
      hasCol_adc1_ne _ (by decide)]
  have hsp : hasCol (add_derived_columns df) "spend" = hasCol df "spend" := by
    unfold add_derived_columns
    rw [hasCol_adc5_ne _ (by decide), hasCol_adc4_ne _ (by decide),
      hasCol_adc3_ne _ (by decide), hasCol_adc2_ne _ (by decide),
      hasCol_adc1_ne _ (by decide)]
  have hroi : hasCol (add_derived_columns df) "roi" = hasCol (adc1 df) "roi" := by
    unfold add_derived_columns
    rw [hasCol_adc5_ne _ (by decide), hasCol_adc4_ne _ (by decide),
      hasCol_adc3_ne _ (by decide), hasCol_adc2_ne _ (by decide)]
  unfold adc1
  rw [hroi, hrev, hsp]
  by_cases hg : (!hasCol df "roi" && hasCol df "revenue" && hasCol df "spend") = true
  · have h1 : hasCol (adc1 df) "roi" = true := by
      unfold adc1; rw [if_pos hg]; exact hasCol_setCol_self _ _ _
    rw [h1]; simp
  · have h1 : adc1 df = df := by unfold adc1; rw [if_neg hg]
    rw [h1, if_neg hg]

theorem adc2_second (df : DataFrame) :
    adc2 (add_derived_columns df) = add_derived_columns df := by
  have hcl : hasCol (add_derived_columns df) "clicks" = hasCol (adc1 df) "clicks" := by
    unfold add_derived_columns
    rw [hasCol_adc5_ne _ (by decide), hasCol_adc4_ne _ (by decide),
      hasCol_adc3_ne _ (by decide), hasCol_adc2_ne _ (by decide)]
  have him : hasCol (add_derived_columns df) "impressions"
      = hasCol (adc1 df) "impressions" := by
    unfold add_derived_columns
    rw [hasCol_adc5_ne _ (by decide), hasCol_adc4_ne _ (by decide),
      hasCol_adc3_ne _ (by decide), hasCol_adc2_ne _ (by decide)]
  have hctr : hasCol (add_derived_columns df) "ctr" = hasCol (adc2 (adc1 df)) "ctr" := by
    unfold add_derived_columns
    rw [hasCol_adc5_ne _ (by decide), hasCol_adc4_ne _ (by decide),
      hasCol_adc3_ne _ (by decide)]
  unfold adc2
  rw [hctr, hcl, him]
  by_cases hg : (!hasCol (adc1 df) "ctr" && hasCol (adc1 df) "clicks"
      && hasCol (adc1 df) "impressions") = true
  · have h1 : hasCol (adc2 (adc1 df)) "ctr" = true := by
      unfold adc2; rw [if_pos hg]; exact hasCol_setCol_self _ _ _
    rw [h1]; simp
  · have h1 : adc2 (adc1 df) = adc1 df := by unfold adc2; rw [if_neg hg]
    rw [h1, if_neg hg]

theorem adc3_second (df : DataFrame) :
    adc3 (add_derived_columns df) = add_derived_columns df := by
  have hcl : hasCol (add_derived_columns df) "clicks"
      = hasCol (adc2 (adc1 df)) "clicks" := by
    unfold add_derived_columns
    rw [hasCol_adc5_ne _ (by decide), hasCol_adc4_ne _ (by decide),
      hasCol_adc3_ne _ (by decide)]
  have him : hasCol (add_derived_columns df) "impressions"
      = hasCol (adc2 (adc1 df)) "impressions" := by
    unfold add_derived_columns
    rw [hasCol_adc5_ne _ (by decide), hasCol_adc4_ne _ (by decide),
      hasCol_adc3_ne _ (by decide)]
  have her : hasCol (add_derived_columns df) "engagement_rate"
      = hasCol (adc3 (adc2 (adc1 df))) "engagement_rate" := by
    unfold add_derived_columns
    rw [hasCol_adc5_ne _ (by decide), hasCol_adc4_ne _ (by decide)]
  unfold adc3
  rw [her, hcl, him]
  by_cases hg : (!hasCol (adc2 (adc1 df)) "engagement_rate"
      && hasCol (adc2 (adc1 df)) "clicks"
      && hasCol (adc2 (adc1 df)) "impressions") = true
  · have h1 : hasCol (adc3 (adc2 (adc1 df))) "engagement_rate" = true := by
      unfold adc3; rw [if_pos hg]; exact hasCol_setCol_self _ _ _
    rw [h1]; simp
  · have h1 : adc3 (adc2 (adc1 df)) = adc2 (adc1 df) := by unfold adc3; rw [if_neg hg]
    rw [h1, if_neg hg]

theorem adc4_second (df : DataFrame) :
    adc4 (add_derived_columns df) = add_derived_columns df := by
  have hst : getCol (add_derived_columns df) "start_date"
      = getCol (adc3 (adc2 (adc1 df))) "start_date" := by
    unfold add_derived_columns
    rw [getCol_adc5_ne _ (by decide), getCol_adc4_ne _ (by decide)]
  have hen : getCol (add_derived_columns df) "end_date"
      = getCol (adc3 (adc2 (adc1 df))) "end_date" := by
    unfold add_derived_columns
    rw [getCol_adc5_ne _ (by decide), getCol_adc4_ne _ (by decide)]
  unfold adc4
  rw [hasCol_of_eq_getCol hst, hasCol_of_eq_getCol hen,
    getColD_congr hst, getColD_congr hen]
  by_cases hg : (hasCol (adc3 (adc2 (adc1 df))) "start_date"
      && hasCol (adc3 (adc2 (adc1 df))) "end_date") = true
  · simp only [hg, if_true]
    have hd4 : adc4 (adc3 (adc2 (adc1 df))) = setCol (adc3 (adc2 (adc1 df)))
        "campaign_duration"
        (List.zipWith durCell (getColD (adc3 (adc2 (adc1 df))) "end_date")
          (getColD (adc3 (adc2 (adc1 df))) "start_date")) := by
      unfold adc4; rw [if_pos hg]
    have hAll : allNamed (add_derived_columns df) "campaign_duration"
        (List.zipWith durCell (getColD (adc3 (adc2 (adc1 df))) "end_date")
          (getColD (adc3 (adc2 (adc1 df))) "start_date")) := by
      unfold add_derived_columns
      refine allNamed_adc5 ?_ (by decide)
      rw [hd4]; exact allNamed_setCol_self _ _ _
    have hHas : hasCol (add_derived_columns df) "campaign_duration" = true := by
      unfold add_derived_columns
      rw [hasCol_adc5_ne _ (by decide), hd4]
      exact hasCol_setCol_self _ _ _
    exact setCol_noop hHas hAll
  · simp [hg]

theorem adc5_second (df : DataFrame) :
    adc5 (add_derived_columns df) = add_derived_columns df := by
  have hsp : hasCol (add_derived_columns df) "spend"
      = hasCol (adc4 (adc3 (adc2 (adc1 df)))) "spend" := by
    unfold add_derived_columns
    rw [hasCol_adc5_ne _ (by decide)]
  have hcv : hasCol (add_derived_columns df) "conversions"
      = hasCol (adc4 (adc3 (adc2 (adc1 df)))) "conversions" := by
    unfold add_derived_columns
    rw [hasCol_adc5_ne _ (by decide)]
  unfold adc5
  rw [hsp, hcv]
  by_cases hg : (!hasCol (adc4 (adc3 (adc2 (adc1 df)))) "cpa"
      && hasCol (adc4 (adc3 (adc2 (adc1 df)))) "spend"
      && hasCol (adc4 (adc3 (adc2 (adc1 df)))) "conversions") = true
  · have h1 : hasCol (add_derived_columns df) "cpa" = true := by
      unfold add_derived_columns adc5; rw [if_pos hg]; exact hasCol_setCol_self _ _ _
    rw [h1]; simp
  · have h1 : hasCol (add_derived_columns df) "cpa"
        = hasCol (adc4 (adc3 (adc2 (adc1 df)))) "cpa" := by
      unfold add_derived_columns adc5; rw [if_neg hg]
    rw [h1, if_neg hg]

/-- `DataLoader.add_derived_columns` is idempotent: on a second application
the guarded columns are already present, and `campaign_duration` is
recomputed from unchanged date columns to the value it already holds. -/
theorem add_derived_columns_idem (df : DataFrame) :
    add_derived_columns (add_derived_columns df) = add_derived_columns df := by
  show adc5 (adc4 (adc3 (adc2 (adc1 (add_derived_columns df)))))
      = add_derived_columns df
  rw [adc1_second df, adc2_second df, adc3_second df, adc4_second df, adc5_second df]

/-!
### Random number generation

`np.random` is modelled as an abstract pseudo-random generator interface:
a state type, a `seed` operation, and the three draw operations the code
uses, each with its documented range property.  Everything proved below
holds for every implementation of this interface, in particular for the
actual Mersenne Twister.
-/

/-- Abstract interface for the `np.random` global generator. -/
structure RngSpec (σ : Type) where
  seed : ℕ → σ
  choiceIdx : σ → ℕ → ℕ × σ
  uniform : σ → ℚ → ℚ → ℚ × σ
  randint : σ → ℤ → ℤ → ℤ × σ
  choiceIdx_lt : ∀ s k, 0 < k → (choiceIdx s k).1 < k
  uniform_mem : ∀ s lo hi, lo ≤ hi → lo ≤ (uniform s lo hi).1 ∧ (uniform s lo hi).1 ≤ hi
  randint_mem : ∀ s lo hi, lo < hi → lo ≤ (randint s lo hi).1 ∧ (randint s lo hi).1 < hi

/-- A trivial implementation of the interface (always returns the lower
bound), used to instantiate universally quantified theorems at concrete
inputs. -/
def constRng : RngSpec ℕ where
  seed k := k
  choiceIdx s _ := (0, s + 1)
  uniform s lo _ := (lo, s + 1)
  randint s lo _ := (lo, s + 1)
  choiceIdx_lt := by intro s k hk; simpa using hk
  uniform_mem := by intro s lo hi h; exact ⟨le_refl lo, h⟩
  randint_mem := by intro s lo hi h; exact ⟨le_refl lo, h⟩

/-- Draw `n` values in sequence, threading the generator state. -/
def drawN {σ α : Type} (f : σ → α × σ) : ℕ → σ → List α × σ
  | 0, s => ([], s)
  | n + 1, s =>
    let a := f s
    let rest := drawN f n a.2
    (a.1 :: rest.1, rest.2)

/-!
### String utilities

Python `str.lower`, substring containment (`in`), `str.strip`, decimal
formatting (f-strings), and the email regular expression, modelled over
lists of characters.
-/

/-- Whitespace stripped by Python `str.strip()`. -/
def isPySpace (c : Char) : Bool :=
  c == ' ' || c == '\t' || c == '\n' || c == '\r' || c == '\x0b' || c == '\x0c'

def stripChars (cs : List Char) : List Char :=
  ((cs.dropWhile isPySpace).reverse.dropWhile isPySpace).reverse

/-- Python `str.strip()`. -/
def pyStrip (s : String) : String := String.mk (stripChars s.data)

/-- Does the list start with the given pattern? -/
def leadsWith : List Char → List Char → Bool
  | _, [] => true
  | [], _ :: _ => false
  | a :: as, b :: bs => a == b && leadsWith as bs

/-- Python substring containment `need in hay`. -/
def hasSub : List Char → List Char → Bool
  | [], need => need.isEmpty
  | a :: as, need => leadsWith (a :: as) need || hasSub as need

/-- `s.lower()` as a character list. -/
def lcList (s : String) : List Char := s.data.map Char.toLower

/-- `word in s.lower()` for a (lowercase) keyword. -/
def kwIn (s : String) (word : String) : Bool := hasSub (lcList s) word.data

/-- Left-pad a digit string with zeros to length `k`. -/
def padZeros (k : ℕ) (s : String) : String :=
  String.mk (List.replicate (k - s.length) '0') ++ s

/-- Python `f-string` fixed-point formatting `.pf` of an exact rational,
with round half to even. -/
def renderFixed (p : ℕ) (q : ℚ) : String :=
  let r := rhe (q * 10 ^ p)
  let a := r.natAbs
  (if r < 0 then "-" else "")
    ++ toString (a / 10 ^ p)
    ++ (if p == 0 then "" else "." ++ padZeros p (toString (a % 10 ^ p)))

/-- Fixed-point formatting of a cell (`nan` / `inf` print as in Python). -/
def fmtCell (p : ℕ) : Cell → String
  | .num q => renderFixed p q
  | .nan => "nan"
  | .pinf => "inf"
  | .ninf => "-inf"
  | .str s => s

/-!
### EmailManager (email_utils.py)

`validate_email` / `validate_email_list` (lines 34-51), `send_campaign`
(142-168), `simulate_email_send` (170-185) and `save_campaign_history`
(216-228).  The session-state `email_history` list is passed and returned
explicitly.
-/

/-- Characters allowed by `[a-zA-Z0-9._%+-]` (the local part of the email
pattern). -/
def localChar (c : Char) : Bool :=
  c.isAlphanum || c == '.' || c == '_' || c == '%' || c == '+' || c == '-'

/-- Characters allowed by `[a-zA-Z0-9.-]` (the domain part). -/
def domChar (c : Char) : Bool :=
  c.isAlphanum || c == '.' || c == '-'

/-- Match `[a-zA-Z0-9.-]+\.[a-zA-Z]\x7b2,\x7d$` against the domain.  The
top-level-domain group must run to the end of the string and contains only
letters, so only the segment after the last dot can match it; the part
before that dot must be a nonempty run of domain characters. -/
def domOk (dom : List Char) : Bool :=
  let tld := (dom.reverse.takeWhile (fun c => c != '.')).reverse
  if tld.length == dom.length then false
  else
    let pre := dom.take (dom.length - tld.length - 1)
    !pre.isEmpty && pre.all domChar && decide (2 ≤ tld.length)
      && tld.all (fun c => c.isAlpha)

/-- Full match of `^[a-zA-Z0-9._%+-]+@[a-zA-Z0-9.-]+\.[a-zA-Z]\x7b2,\x7d$`.
Neither character class contains `@`, so the local part is exactly the text
before the first `@` and the rest must contain no further `@`. -/
def emailMatch (cs : List Char) : Bool :=
  let lp := cs.takeWhile (fun c => c != '@')
  match cs.dropWhile (fun c => c != '@') with
  | [] => false
  | _ :: dom => !lp.isEmpty && lp.all localChar && domOk dom

/-- `EmailManager.validate_email` (email_utils.py 34-37): strips the input
and matches it against the email pattern. -/
def validate_email (s : String) : Bool := emailMatch (pyStrip s).data

/-- `EmailManager.validate_email_list` (email_utils.py 39-51): strips each
entry; a nonempty valid entry goes to the first list, a nonempty invalid one
to the second, an empty one to neither. -/
def validate_email_list : List String → List String × List String
  | [] => ([], [])
  | e :: rest =>
    let s := pyStrip e
    let vi := validate_email_list rest
    if s != "" && validate_email s then (s :: vi.1, vi.2)
    else if s != "" then (vi.1, s :: vi.2)
    else vi

/-- The names bound at module level in `email_utils.py` (its import list and
the class it defines).  `numpy` is not imported there, so the name `np` does
not resolve. -/
def emailUtilsGlobals : List String :=
  ["smtplib", "pd", "MIMEText", "MIMEMultipart", "MIMEBase", "encoders",
   "re", "datetime", "timedelta", "List", "Dict", "Optional", "Tuple", "Any",
   "logging", "st", "EmailManager"]

/-- Python module-level name resolution: an unbound name raises `NameError`. -/
def resolveGlobal (n : String) : Except PyError Unit :=
  if emailUtilsGlobals.contains n then .ok () else .error .nameError

/-- One entry of the campaign-history ledger
(`st.session_state.email_history`). -/
structure EmailRecord where
  timestamp : String
  campaign_name : String
  subject : String
  recipients_count : ℕ
  status : String
  open_rate : String
  click_rate : String
deriving DecidableEq, Repr

/-- `EmailManager.save_campaign_history` (email_utils.py 216-228).  Building
the record evaluates `np.random.uniform(15, 35)`, but `email_utils.py` never
imports numpy, so the name lookup of `np` raises a `NameError` before
anything is appended.  The rest of the body is modelled as written (it is
unreachable).  `now` stands for `datetime.now()`. -/
def save_campaign_history {σ : Type} (R : RngSpec σ) (rs : σ) (now : String)
    (history : List EmailRecord) (campaign_name subject : String)
    (recipients : List String) : Except PyError (List EmailRecord × σ) := do
  let _ ← resolveGlobal "np"
  let u1 := R.uniform rs 15 35
  let u2 := R.uniform u1.2 2 8
  .ok (history ++
    [{ timestamp := now, campaign_name := campaign_name, subject := subject,
       recipients_count := recipients.length, status := "Sent",
       open_rate := renderFixed 1 u1.1 ++ "%",
       click_rate := renderFixed 1 u2.1 ++ "%" }], u2.2)

/-- `EmailManager.simulate_email_send` (email_utils.py 170-185): sleeps and
returns `True`. -/
def simulate_email_send (_campaign_name _subject _content : String)
    (_recipients : List String) : Bool := true

/-- `EmailManager.send_campaign` (email_utils.py 142-168): validates the
recipients, simulates the send, then saves to history.  Its `try/except`
catches any exception (here, the `NameError` raised inside
`save_campaign_history`) and returns `False`, with the history in whatever
state it had reached (no append has happened at the point of the raise). -/
def send_campaign {σ : Type} (R : RngSpec σ) (rs : σ) (now : String)
    (history : List EmailRecord) (campaign_name subject content : String)
    (recipients : List String) : Bool × List EmailRecord × σ :=
  let vi := validate_email_list recipients
  if vi.1.isEmpty then (false, history, rs)
  else
    if simulate_email_send campaign_name subject content vi.1 then
      match save_campaign_history R rs now history campaign_name subject vi.1 with
      | .ok hrs => (true, hrs.1, hrs.2)
      | .error _ => (false, history, rs)
    else (false, history, rs)

/-!
### Aggregation helpers for the Insight Router

Pandas reductions with `skipna` semantics: `mean`, `max`, `min`, `sum`
ignore NaN; the mean and max/min of an empty selection are NaN; the sum
of an empty selection is 0.  `groupby` drops NaN keys and groups by value.
Report strings are assembled from the same computed quantities as the
Python f-string templates; decorative emojis, newlines and thousands
separators are condensed, which no theorem below inspects.
-/

def dropNan (col : Col) : Col := col.filter (fun c => !c.isNan)

def colSumCell (col : Col) : Cell :=
  (dropNan col).foldl cadd (.num 0)

def colMeanCell (col : Col) : Cell :=
  let vs := dropNan col
  if vs.isEmpty then .nan
  else cdiv (vs.foldl cadd (.num 0)) (.num vs.length)

def colMaxCell (col : Col) : Cell :=
  match dropNan col with
  | [] => .nan
  | v :: rest => rest.foldl (fun a b => if cellLtB a b then b else a) v

def colMinCell (col : Col) : Cell :=
  match dropNan col with
  | [] => .nan
  | v :: rest => rest.foldl (fun a b => if cellLtB b a then b else a) v

/-- Elementwise `<=`. -/
def cellLeB : Cell → Cell → Bool
  | .num a, .num b => a ≤ b
  | .num _, .pinf => true
  | .ninf, .num _ => true
  | .ninf, .pinf => true
  | .pinf, .pinf => true
  | .ninf, .ninf => true
  | _, _ => false

def cellGtZeroB (c : Cell) : Bool := cellLtB (.num 0) c

/-- Distinct values in order of first appearance. -/
def dedupFirst : List Cell → List Cell
  | [] => []
  | c :: rest => c :: (dedupFirst rest).filter (fun x => x != c)

/-- Group keys of `df.groupby(keys)`: distinct non-NaN key values. -/
def groupKeys (keys : Col) : List Cell :=
  dedupFirst (dropNan keys)

/-- Values of `vals` in the group with key `k`. -/
def groupVals (keys vals : Col) (k : Cell) : Col :=
  (keys.zip vals).filterMap (fun p => if p.1 == k then some p.2 else none)

def groupMean (keys vals : Col) (k : Cell) : Cell :=
  colMeanCell (groupVals keys vals k)

def groupSum (keys vals : Col) (k : Cell) : Cell :=
  colSumCell (groupVals keys vals k)

/-- Insertion step for a descending sort by a cell-valued key.  NaN keys
never win a comparison and sink to the end, matching the default
`na_position` of `sort_values`; order among ties is not inspected by any
theorem. -/
def insertByDesc {α : Type} (key : α → Cell) (x : α) : List α → List α
  | [] => [x]
  | y :: rest => if cellLtB (key y) (key x) then x :: y :: rest
                 else y :: insertByDesc key x rest

/-- Model of `sort_values(ascending=False)`. -/
def sortByDesc {α : Type} (key : α → Cell) : List α → List α
  | [] => []
  | x :: rest => insertByDesc key x (sortByDesc key rest)

/-!
### CampaignOptimizer (utils.py 109-546): the Insight Router

Each intent handler starts with a "no data" branch.  With data present the
handlers compute pandas reductions; `analyze_roi_query` indexes
`channel_roi.index[0]` (an IndexError when the groupby result is empty)
and `analyze_channel_query` aggregates columns that may be missing (a
KeyError).  Errors are modelled in `Except`.
-/

def roiNoDataMsg : String :=
  "ROI Analysis - I would love to help you analyze ROI, but I need campaign data first. Please upload your campaign dataset in the Data Upload section. Once you have data uploaded, I can provide insights on: Best performing campaigns by ROI, ROI trends over time, Channel-specific ROI analysis, Optimization recommendations"

def roiReportStr (avg best worst : Cell) (pos total : ℕ) (ratio : Cell)
    (bc : String) (bcRoi : Cell) : String :=
  "ROI Analysis Results - Overall Performance: Average ROI: "
    ++ fmtCell 2 avg ++ "% Best Campaign ROI: " ++ fmtCell 2 best
    ++ "% Worst Campaign ROI: " ++ fmtCell 2 worst
    ++ "% Profitable Campaigns: " ++ toString pos ++ "/" ++ toString total
    ++ " (" ++ fmtCell 1 ratio ++ "%) Top Performing Channel: " ++ bc
    ++ ": " ++ fmtCell 2 bcRoi ++ "% average ROI Recommendations: "
    ++ (if cellLtB (.num 0) avg then "Great job! Your average ROI is positive."
        else "Consider optimizing campaigns - negative average ROI detected.")
    ++ (if bc != "N/A" then " Focus more budget on " ++ bc ++ " campaigns." else "")
    ++ " Consider A/B testing top performers to scale success."

/-- Model of `CampaignOptimizer.analyze_roi_query` (utils.py 141-187). -/
def analyze_roi_query (data : Option DataFrame) : Except PyError String :=
  match data with
  | none => .ok roiNoDataMsg
  | some df =>
    if !hasCol df "roi" then .ok roiNoDataMsg
    else
      let roi := getColD df "roi"
      let avg := colMeanCell roi
      let best := colMaxCell roi
      let worst := colMinCell roi
      let pos := roi.countP cellGtZeroB
      let total := nRows df
      let ratio := cmul (cdiv (.num pos) (.num total)) (.num 100)
      do
        let bc ←
          (if hasCol df "channel" then
            match sortByDesc (fun p => p.2)
                ((groupKeys (getColD df "channel")).map
                  (fun k => (k, groupMean (getColD df "channel") roi k))) with
            | [] => Except.error .indexError
            | g :: _ => Except.ok (fmtCell 2 g.1, g.2)
          else Except.ok ("N/A", Cell.num 0))
        .ok (roiReportStr avg best worst pos total ratio bc.1 bc.2)

def budgetNoDataMsg : String :=
  "Budget Analysis - Upload your campaign data to get detailed budget insights including: Spend efficiency analysis, Budget allocation recommendations, Cost per acquisition optimization, Channel-wise budget performance"

def budgetReportStr (total_budget total_spend bu avg_budget avg_spend : Cell)
    (roiRec : Bool) : String :=
  "Budget Analysis - Budget Overview: Total Budget Allocated: $"
    ++ fmtCell 2 total_budget ++ " Total Amount Spent: $" ++ fmtCell 2 total_spend
    ++ " Budget Utilization: " ++ fmtCell 1 bu ++ "% Average Campaign Budget: $"
    ++ fmtCell 2 avg_budget ++ " Average Campaign Spend: $" ++ fmtCell 2 avg_spend
    ++ " Budget Efficiency: "
    ++ (if cellLeB bu (.num 100) then "Good budget management - spending within limits"
        else "Budget exceeded - review spend controls")
    ++ " Recommendations: "
    ++ (if roiRec then "Increase budget for high-ROI campaigns"
        else "Focus on cost optimization")
    ++ " Consider reallocating budget from underperforming campaigns. Set up automated budget alerts for better control."

/-- Model of `CampaignOptimizer.analyze_budget_query` (utils.py 189-226). -/
def analyze_budget_query (data : Option DataFrame) : Except PyError String :=
  match data with
  | none => .ok budgetNoDataMsg
  | some df =>
    let total_budget := if hasCol df "budget" then colSumCell (getColD df "budget") else .num 0
    let total_spend := if hasCol df "spend" then colSumCell (getColD df "spend") else .num 0
    let bu := if cellLtB (.num 0) total_budget
              then cmul (cdiv total_spend total_budget) (.num 100) else .num 0
    let avg_budget := if hasCol df "budget" then colMeanCell (getColD df "budget") else .num 0
    let avg_spend := if hasCol df "spend" then colMeanCell (getColD df "spend") else .num 0
    let roiRec := hasCol df "roi" && cellLtB (.num 15) (colMeanCell (getColD df "roi"))
    .ok (budgetReportStr total_budget total_spend bu avg_budget avg_spend roiRec)

def channelNoDataMsg : String :=
  "Channel Analysis - Upload campaign data with channel information to get insights on: Best performing marketing channels, Channel-specific ROI and engagement, Budget allocation by channel, Cross-channel optimization opportunities"

def channelRankLine (p : Cell × Cell × Cell × Cell) : String :=
  fmtCell 2 p.1 ++ ": " ++ fmtCell 2 p.2.1 ++ "% ROI, $" ++ fmtCell 0 p.2.2.1 ++ " spend"

def channelReportStr (rankings : List (Cell × Cell × Cell × Cell))
    (best worst : Cell × Cell × Cell × Cell) : String :=
  "Channel Performance Analysis - Channel Rankings (by ROI): "
    ++ String.intercalate " " ((rankings.take 5).map channelRankLine)
    ++ " Key Insights: Best Performer: " ++ fmtCell 2 best.1 ++ " ("
    ++ fmtCell 2 best.2.1 ++ "% ROI) Needs Attention: " ++ fmtCell 2 worst.1
    ++ " (" ++ fmtCell 2 worst.2.1 ++ "% ROI) Recommendations: Increase budget allocation to "
    ++ fmtCell 2 best.1 ++ ". Investigate why " ++ fmtCell 2 worst.1
    ++ " is underperforming. Consider cross-channel attribution analysis. Test new creative formats on top channels."

/-- Model of `CampaignOptimizer.analyze_channel_query` (utils.py 228-268).
The aggregation dict names the columns roi, spend and budget; `agg` raises a
KeyError when any of them is missing from the frame. -/
def analyze_channel_query (data : Option DataFrame) : Except PyError String :=
  match data with
  | none => .ok channelNoDataMsg
  | some df =>
    if !hasCol df "channel" then .ok channelNoDataMsg
    else if !(hasCol df "roi" && hasCol df "spend" && hasCol df "budget") then
      .error .keyError
    else
      let ch := getColD df "channel"
      let perf := (groupKeys ch).map (fun k =>
        (k, cround 2 (groupMean ch (getColD df "roi") k),
            cround 2 (groupSum ch (getColD df "spend") k),
            cround 2 (groupSum ch (getColD df "budget") k)))
      match sortByDesc (fun p => p.2.1) perf with
      | [] => .error .indexError
      | best :: rest => .ok (channelReportStr (best :: rest) best ((best :: rest).getLastD best))

def optNoDataMsg : String :=
  "Optimization Suggestions - Upload your campaign data to get personalized optimization recommendations: Performance improvement opportunities, Budget reallocation suggestions, Channel optimization strategies, Creative and targeting recommendations"

/-- Model of `CampaignOptimizer.provide_optimization_suggestions`
(utils.py 279-339). -/
def provide_optimization_suggestions (data : Option DataFrame) : Except PyError String :=
  match data with
  | none => .ok optNoDataMsg
  | some df =>
    let s1 : List String :=
      if hasCol df "roi" then
        let avg := colMeanCell (getColD df "roi")
        if cellLtB avg (.num 10) then
          ["Target Optimization: Review audience targeting - low ROI suggests poor fit"]
        else if cellLtB (.num 50) avg then
          ["Scale Success: Consider increasing budget for high-ROI campaigns"]
        else []
      else []
    let s2 : List String :=
      if hasCol df "budget" && hasCol df "spend" then
        let under := ((getColD df "spend").zip (getColD df "budget")).countP
          (fun p => cellLtB p.1 (cmul p.2 (.num (8/10))))
        if 0 < under then
          ["Budget Reallocation: " ++ toString under ++ " campaigns are under-utilizing budget"]
        else []
      else []
    let s3 : List String :=
      if hasCol df "channel" then
        if (groupKeys (getColD df "channel")).length < 3 then
          ["Channel Diversification: Consider expanding to more marketing channels"]
        else []
      else []
    let s4 : List String :=
      if hasCol df "engagement_rate" then
        let low := (getColD df "engagement_rate").countP (fun c => cellLtB c (.num 2))
        if 0 < low then
          ["Creative Refresh: Low engagement rates suggest need for new creatives"]
        else []
      else []
    let sugg := s1 ++ s2 ++ s3 ++ s4
    let sugg2 := if sugg.isEmpty then
        ["Overall Performance: Your campaigns are performing well!",
         "Continuous Testing: Consider A/B testing to further optimize",
         "Deep Dive Analytics: Look into user journey analysis"]
      else sugg
    .ok ("Campaign Optimization Recommendations - Based on your campaign data analysis: "
      ++ String.intercalate " " sugg2
      ++ " Next Steps: 1. Prioritize high-impact optimizations first 2. Set up proper tracking and measurement 3. Test changes on small budget allocations initially 4. Monitor performance changes closely")

def trendNoDataMsg : String :=
  "Performance Trends Analysis - Upload your campaign data to see: Performance trends over time, Seasonal patterns and insights, Growth opportunities, Predictive recommendations"

/-- Least-squares slope of `np.polyfit(arange(n), values, 1)[0]` in closed
form over cells.  Exact for finite values; non-finite values propagate
through the extended arithmetic (numerically `polyfit` may instead fail on
them, a case no theorem below exercises). -/
def slopeOf (vs : Col) : Cell :=
  let n : ℚ := vs.length
  let xs := (List.range vs.length).map (fun i => (i : ℚ))
  let sx : Cell := .num (xs.foldl (fun a b => a + b) 0)
  let sxx : Cell := .num (xs.foldl (fun a b => a + b * b) 0)
  let sy := vs.foldl cadd (.num 0)
  let sxy := ((xs.zip vs).map (fun p => cmul (.num p.1) p.2)).foldl cadd (.num 0)
  cdiv (csub (cmul (.num n) sxy) (cmul sx sy))
       (csub (cmul (.num n) sxx) (cmul sx sx))

def trendLine (p : String × Cell) : String :=
  "- " ++ p.1 ++ ": "
    ++ (if cellLtB (.num 0) p.2 then "Improving"
        else if cellLtB p.2 (.num 0) then "Declining" else "Stable")

def trendReportStr (n : ℕ) (trends : List (String × Cell)) : String :=
  "Performance Trends Analysis - Trend Summary: "
    ++ (if trends.isEmpty then "- Insufficient data for trend analysis"
        else String.intercalate " " (trends.map trendLine))
    ++ " Key Insights: Campaign count: " ++ toString n
    ++ " total campaigns Performance stability: "
    ++ (if !trends.isEmpty then "Consistent" else "Variable")
    ++ " Optimization opportunity: "
    ++ (if trends.any (fun p => cellLtB p.2 (.num 0)) then "High" else "Moderate")
    ++ " Recommendations: Monitor declining trends closely. Capitalize on improving metrics. Set up automated trend alerts. Consider seasonal adjustments."

/-- Model of `CampaignOptimizer.analyze_performance_trends` (utils.py 341-383). -/
def analyze_performance_trends (data : Option DataFrame) : Except PyError String :=
  match data with
  | none => .ok trendNoDataMsg
  | some df =>
    let metrics := ["roi", "engagement_rate", "spend", "revenue"].filter (hasCol df)
    let trends := metrics.filterMap (fun m =>
      let values := dropNan (getColD df m)
      if 1 < values.length then some (m, slopeOf values) else none)
    .ok (trendReportStr (nRows df) trends)

def generalNoDataMsg : String :=
  "GAIBA AI Assistant - Hello! I am your AI-powered marketing assistant. I can help you with: Campaign Analytics: Performance analysis and insights, ROI and budget optimization, Channel effectiveness review. Optimization: Targeting recommendations, Budget reallocation advice, Creative performance insights. Strategy: Growth opportunities, Competitive analysis, Market trends. To get started, upload your campaign data or ask me specific questions about marketing analytics!"

/-- Model of `CampaignOptimizer.provide_general_insights` (utils.py 397-453). -/
def provide_general_insights (data : Option DataFrame) : Except PyError String :=
  match data with
  | none => .ok generalNoDataMsg
  | some df =>
    let i1 := ["You have " ++ toString (nRows df) ++ " campaigns in your dataset"]
    let i2 := if hasCol df "channel" then
        ["Running across " ++ toString (groupKeys (getColD df "channel")).length
          ++ " different channels"]
      else []
    let i3 := if hasCol df "roi" then
        ["Average ROI is " ++ fmtCell 2 (colMeanCell (getColD df "roi")) ++ "%"]
      else []
    let i4 := if hasCol df "spend" then
        ["Total spend: $" ++ fmtCell 2 (colSumCell (getColD df "spend"))]
      else []
    .ok ("Campaign Overview - " ++ String.intercalate " " (i1 ++ i2 ++ i3 ++ i4)
      ++ " What would you like to explore? Ask about ROI performance, budget questions, channel analysis, or optimization tips. I am here to help you make data-driven marketing decisions!")

/-- The keyword lists of `get_ai_response` (utils.py 115-139), in the order
the code checks them. -/
def roiKeywords : List String := ["roi", "return", "profit"]

def budgetKeywords : List String := ["budget", "spend", "cost"]

def channelKeywords : List String := ["channel", "platform"]

def optimizeKeywords : List String := ["optimize", "improve", "better"]

def trendKeywords : List String := ["trend", "performance", "analytics"]

/-- Intent categories of the Insight Router. -/
inductive Intent where
  | roi
  | budget
  | channel
  | optimize
  | trend
  | general
deriving DecidableEq, Repr

/-- Model of `CampaignOptimizer.get_ai_response` (utils.py 115-139): the
keyword cascade with first match winning, dispatching to the matching
handler. -/
def get_ai_response (user_input : String) (campaign_data : Option DataFrame) :
    Except PyError String :=
  if roiKeywords.any (kwIn user_input) then analyze_roi_query campaign_data
  else if budgetKeywords.any (kwIn user_input) then analyze_budget_query campaign_data
  else if channelKeywords.any (kwIn user_input) then analyze_channel_query campaign_data
  else if optimizeKeywords.any (kwIn user_input) then
    provide_optimization_suggestions campaign_data
  else if trendKeywords.any (kwIn user_input) then
    analyze_performance_trends campaign_data
  else provide_general_insights campaign_data

/-- The intent chosen by the cascade of `get_ai_response`. -/
def classify_intent (user_input : String) : Intent :=
  if roiKeywords.any (kwIn user_input) then .roi
  else if budgetKeywords.any (kwIn user_input) then .budget
  else if channelKeywords.any (kwIn user_input) then .channel
  else if optimizeKeywords.any (kwIn user_input) then .optimize
  else if trendKeywords.any (kwIn user_input) then .trend
  else .general

/-- The ordered rule list of the specification: categories in fixed priority
order, each with its keyword set, checked first match wins. -/
def intentRules : List (List String × Intent) :=
  [(roiKeywords, .roi), (budgetKeywords, .budget), (channelKeywords, .channel),
   (optimizeKeywords, .optimize), (trendKeywords, .trend)]

/-- First-match classification over the ordered rule list (the
specification-side definition, to be compared with `classify_intent`). -/
def firstMatchIntent (user_input : String) : Intent :=
  match intentRules.find? (fun r => r.1.any (kwIn user_input)) with
  | some r => r.2
  | none => .general

/-- Dispatch table from intent to handler. -/
def runIntent : Intent → Option DataFrame → Except PyError String
  | .roi, d => analyze_roi_query d
  | .budget, d => analyze_budget_query d
  | .channel, d => analyze_channel_query d
  | .optimize, d => provide_optimization_suggestions d
  | .trend, d => analyze_performance_trends d
  | .general, d => provide_general_insights d

/-!
### DataLoader.validate_data (data_loading.py 134-173)

Column dtypes are not tracked separately from contents: a column is
"numeric dtype" when it holds no string cell.  The pandas comparison
`(df[col] < 0).any()` on a column holding strings raises a TypeError
(`str` and `int` do not compare); on numeric columns NaN compares False.
The environment-dependent `memory_usage_mb` counter is not modelled.
-/

structure InfoStats where
  total_rows : ℕ
  total_columns : ℕ
  missing_values : ℕ
  duplicate_rows : ℕ
deriving DecidableEq, Repr

structure ValidationResult where
  is_valid : Bool
  errors : List String
  warnings : List String
  info : InfoStats
deriving DecidableEq, Repr

def requiredColumns : List String := ["campaign_id", "budget", "spend"]

/-- Model of `pd.api.types.is_numeric_dtype`, approximated by contents. -/
def isNumericColB (col : Col) : Bool := col.all (fun c => !c.isStr)

def cellNegB : Cell → Bool
  | .num q => q < 0
  | .ninf => true
  | _ => false

/-- Model of `(df[col] < 0).any()`. -/
def colAnyNeg (col : Col) : Except PyError Bool :=
  if col.any Cell.isStr then .error .typeError
  else .ok (col.any cellNegB)

def negWarnings (df : DataFrame) : List String → Except PyError (List String)
  | [] => .ok []
  | c :: rest => do
    let w ←
      (if hasCol df c then do
        let b ← colAnyNeg (getColD df c)
        pure (if b then ["Negative values found in " ++ c ++ " column"] else [])
      else pure ([] : List String))
    let ws ← negWarnings df rest
    pure (w ++ ws)

def missingCount (df : DataFrame) : ℕ :=
  (df.map (fun p => p.2.countP Cell.isNan)).sum

def rowAt (df : DataFrame) (i : ℕ) : List (Option Cell) :=
  df.map (fun p => p.2[i]?)

/-- Model of `df.duplicated().sum()`: rows equal to an earlier row. -/
def dupRowCount (df : DataFrame) : ℕ :=
  ((List.range (nRows df)).filter
    (fun i => (List.range i).any (fun j => decide (rowAt df j = rowAt df i)))).length

/-- Model of `DataLoader.validate_data`. -/
def validate_data (df : DataFrame) : Except PyError ValidationResult := do
  let missing := requiredColumns.filter (fun c => !hasCol df c)
  let errors := if missing.isEmpty then ([] : List String)
    else ["Missing required columns: " ++ String.intercalate ", " missing]
  let w1 := if hasCol df "budget" && !isNumericColB (getColD df "budget")
    then ["Budget column should be numeric"] else []
  let w2 := if hasCol df "spend" && !isNumericColB (getColD df "spend")
    then ["Spend column should be numeric"] else []
  let wneg ← negWarnings df ["budget", "spend", "revenue"]
  .ok { is_valid := missing.isEmpty, errors := errors, warnings := w1 ++ w2 ++ wneg,
        info := { total_rows := nRows df, total_columns := df.length,
                  missing_values := missingCount df, duplicate_rows := dupRowCount df } }

/-!
### DataProcessor.clean_numeric_columns (utils.py 551-563)

`df.copy()` is modelled by purity; per listed column the code does
`astype(str)`, strips `$` and `,`, then `pd.to_numeric(errors='coerce')`.
-/

/-- Python `str()` of a float value.  Exact for integral values; for
non-integral values an approximation with 17 fractional digits (the
theorems below only exercise string cells, where `astype(str)` is the
identity). -/
def pyFloatRepr (q : ℚ) : String :=
  if q.den == 1 then (if q.num < 0 then "-" else "") ++ toString q.num.natAbs ++ ".0"
  else renderFixed 17 q

def cellToStr : Cell → String
  | .str s => s
  | .num q => pyFloatRepr q
  | .nan => "nan"
  | .pinf => "inf"
  | .ninf => "-inf"

/-- Removal of currency symbols and commas: `str.replace(r'[$,]', '')`. -/
def stripMoney (s : String) : String :=
  String.mk (s.data.filter (fun c => c != '$' && c != ','))

def digitsVal (ds : List Char) : ℕ :=
  ds.foldl (fun a c => 10 * a + (c.toNat - 48)) 0

def parseBody (body : List Char) (sign : ℚ) : Cell :=
  let ip := body.takeWhile Char.isDigit
  match body.drop ip.length with
  | [] => if ip.isEmpty then Cell.nan else .num (sign * digitsVal ip)
  | c :: fps =>
    if c == '.' && fps.all Char.isDigit && !(ip.isEmpty && fps.isEmpty) then
      .num (sign * ((digitsVal ip : ℚ) + (digitsVal fps : ℚ) / (10 ^ fps.length)))
    else .nan

/-- Model of `pd.to_numeric(errors='coerce')` on a string: decimal literals
with optional sign and fraction; `nan` and `inf` spellings; anything else
coerces to NaN.  (Exponent forms are not produced by any input modelled
here.) -/
def parseNumStr (s : String) : Cell :=
  let cs := stripChars s.data
  let lower := cs.map Char.toLower
  if lower = "nan".data then .nan
  else if lower = "inf".data ∨ lower = "infinity".data then .pinf
  else if lower = "-inf".data ∨ lower = "-infinity".data then .ninf
  else
    match cs with
    | '-' :: body => parseBody body (-1)
    | '+' :: body => parseBody body 1
    | body => parseBody body 1

/-- Model of `pd.to_numeric(errors='coerce')` on a cell. -/
def toNumericCell : Cell → Cell
  | .num q => .num q
  | .nan => .nan
  | .pinf => .pinf
  | .ninf => .ninf
  | .str s => parseNumStr s

/-- The per-cell cleaning of `clean_numeric_columns`: `astype(str)`, strip
`$` and `,`, coerce to numeric. -/
def cleanCellFn (c : Cell) : Cell := parseNumStr (stripMoney (cellToStr c))

/-- Model of `DataProcessor.clean_numeric_columns`. -/
def clean_numeric_columns (df : DataFrame) (columns : List String) : DataFrame :=
  columns.foldl
    (fun acc c => if hasCol acc c then setCol acc c ((getColD acc c).map cleanCellFn) else acc)
    df

/-!
### DataLoader.preprocess_data / handle_missing_values / generate_sample_data
(data_loading.py 30-132)

`pd.to_datetime(errors='coerce')` passes date cells (day numbers) through
and coerces everything else to NaT; string date parsing is never exercised
(the generator produces date-typed cells).  Column dtype selection in
`handle_missing_values` is approximated by contents: a column with no
string cell takes the numeric (median) branch, others the categorical
(mode) branch.  The tie order of `mode()[0]` is idealized as first
appearance; it is never exercised because the fills are the identity
whenever a column has no missing values.
-/

def date_columns : List String := ["date", "campaign_date", "start_date", "end_date"]

def numeric_columns : List String :=
  ["budget", "spend", "revenue", "impressions", "clicks", "roi", "engagement_rate"]

def toDatetimeCell : Cell → Cell
  | .num q => .num q
  | _ => .nan

/-- Coerce each listed column (when present) elementwise with `f`. -/
def coerceCols (f : Cell → Cell) (names : List String) (df : DataFrame) : DataFrame :=
  names.foldl
    (fun acc c => if hasCol acc c then setCol acc c ((getColD acc c).map f) else acc)
    df

def insertLeCell (x : Cell) : Col → Col
  | [] => [x]
  | y :: rest => if cellLeB x y then x :: y :: rest else y :: insertLeCell x rest

def sortCells : Col → Col
  | [] => []
  | x :: rest => insertLeCell x (sortCells rest)

/-- Model of `Series.median()` (skipna; mean of the two middle values for an
even count; NaN for an empty selection). -/
def medianCell (col : Col) : Cell :=
  let vs := sortCells (dropNan col)
  if vs.isEmpty then .nan
  else if vs.length % 2 = 1 then vs.getD (vs.length / 2) .nan
  else cdiv (cadd (vs.getD (vs.length / 2 - 1) .nan) (vs.getD (vs.length / 2) .nan)) (.num 2)

/-- Model of `Series.mode()` restricted to its first element: a most
frequent non-NaN value, `none` when there are none. -/
def modeCell (col : Col) : Option Cell :=
  let vs := dropNan col
  match dedupFirst vs with
  | [] => none
  | u :: rest => some (rest.foldl (fun a b => if vs.count a < vs.count b then b else a) u)

def fillNanCell (m : Cell) (c : Cell) : Cell := if c.isNan then m else c

/-- Model of `DataLoader.handle_missing_values`. -/
def handle_missing_values (df : DataFrame) : DataFrame :=
  df.map (fun p =>
    if isNumericColB p.2 then (p.1, p.2.map (fillNanCell (medianCell p.2)))
    else if !p.2.isEmpty then
      (p.1, p.2.map (fillNanCell
        (match modeCell p.2 with
         | some m => m
         | none => .str "Unknown")))
    else p)

/-- Model of `DataLoader.preprocess_data` (data_loading.py 30-55): date
coercion, numeric coercion, missing-value fill, derived columns.  Its
try/except never fires on the modelled domain. -/
def preprocess_data (df : DataFrame) : DataFrame :=
  add_derived_columns (handle_missing_values
    (coerceCols toNumericCell numeric_columns (coerceCols toDatetimeCell date_columns df)))

def channels : List String :=
  ["Email", "Social Media", "Google Ads", "Display", "Video", "Native"]

/-- Python `f-string CAMP_` with `i+1` zero-padded to four digits. -/
def campaignId (i : ℕ) : String := "CAMP_" ++ padZeros 4 (toString (i + 1))

/-- The dict literal of `generate_sample_data`, built from the drawn value
lists: ids and names from the row index, `channel` by indexing the fixed
channel list, `start_date` as `pd.date_range('2023-01-01', periods=n,
freq='D')` (day 19358 since 1970-01-01, plus the row index), the uniform
draws rounded to 2 decimals, the integer draws as numbers. -/
def sampleDict (chIdx : List ℕ) (bud sp : List ℚ) (im cl cv : List ℤ)
    (rev : List ℚ) (n : ℕ) : DataFrame :=
  [("campaign_id", (List.range n).map (fun i => Cell.str (campaignId i))),
   ("campaign_name", (List.range n).map (fun i => Cell.str ("Campaign " ++ toString (i + 1)))),
   ("channel", chIdx.map (fun k => Cell.str (channels.getD k ""))),
   ("start_date", (List.range n).map (fun i => Cell.num (19358 + (i : ℚ)))),
   ("budget", bud.map (fun q => Cell.num (roundTo 2 q))),
   ("spend", sp.map (fun q => Cell.num (roundTo 2 q))),
   ("impressions", im.map (fun z => Cell.num (z : ℚ))),
   ("clicks", cl.map (fun z => Cell.num (z : ℚ))),
   ("conversions", cv.map (fun z => Cell.num (z : ℚ))),
   ("revenue", rev.map (fun q => Cell.num (roundTo 2 q)))]

/-- The raw generated frame: the dict made into a DataFrame, plus
`df['end_date'] = df['start_date'] + pd.Timedelta(days=d)` where `d` is one
scalar draw shared by all rows. -/
def rawFrame (chIdx : List ℕ) (bud sp : List ℚ) (im cl cv : List ℤ)
    (rev : List ℚ) (n : ℕ) (d : ℤ) : DataFrame :=
  setCol (sampleDict chIdx bud sp im cl cv rev n) "end_date"
    ((getColD (sampleDict chIdx bud sp im cl cv rev n) "start_date").map
      (fun c => cadd c (.num (d : ℚ))))

/-- Model of `DataLoader.generate_sample_data` (data_loading.py 102-132).
The first statement re-seeds the global generator with 42, so the incoming
state `s0` is never consumed.  Draws happen in source order: channel,
budget, spend, impressions, clicks, conversions, revenue, then the scalar
end-date offset `np.random.randint(1, 30)`. -/
def generate_sample_data {σ : Type} (R : RngSpec σ) (_s0 : σ) (n : ℕ) :
    DataFrame × σ :=
  let s := R.seed 42
  let ch := drawN (fun t => R.choiceIdx t channels.length) n s
  let budgets := drawN (fun t => R.uniform t 1000 50000) n ch.2
  let spends := drawN (fun t => R.uniform t 800 45000) n budgets.2
  let imps := drawN (fun t => R.randint t 10000 1000000) n spends.2
  let clicks := drawN (fun t => R.randint t 100 50000) n imps.2
  let convs := drawN (fun t => R.randint t 10 1000) n clicks.2
  let revs := drawN (fun t => R.uniform t 1500 75000) n convs.2
  let d := R.randint revs.2 1 30
  (preprocess_data (rawFrame ch.1 budgets.1 spends.1 imps.1 clicks.1 convs.1 revs.1 n d.1),
   d.2)

/-- For C7: every row has `end_date` strictly after `start_date`. -/
def endAfterStartB (df : DataFrame) : Bool :=
  match getCol df "start_date", getCol df "end_date" with
  | some s, some e => (s.zip e).all (fun p => cellLtB p.1 p.2)
  | _, _ => false

/-- For C7: the financial and volume columns exist and hold finite numbers
in every row. -/
def allPopulatedB (df : DataFrame) : Bool :=
  ["budget", "spend", "impressions", "clicks", "conversions", "revenue"].all
    (fun c => hasCol df c && (getColD df c).all Cell.isNum)

/-! Supporting lemmas for the generator pipeline: each preprocessing step is
the identity on the fully populated frames the generator produces. -/

theorem all_const_true {α : Type} (l : List α) : (l.all fun _ => true) = true := by
  induction l with
  | nil => rfl
  | cons a t ih => simp [List.all_cons, ih]

theorem map_id_of_mem {α : Type} {f : α → α} {l : List α}
    (h : ∀ c ∈ l, f c = c) : l.map f = l := by
  induction l with
  | nil => rfl
  | cons a t ih =>
    simp only [List.map_cons, h a (by simp)]
    rw [ih (fun c hc => h c (by simp [hc]))]

/-- Filling missing values changes nothing in a column without NaN cells. -/
theorem fillNan_id {m : Cell} {col : Col} (h : col.all (fun c => !c.isNan) = true) :
    col.map (fillNanCell m) = col := by
  refine map_id_of_mem (fun c hc => ?_)
  have := (List.all_eq_true.mp h) c hc
  unfold fillNanCell
  simp at this
  simp [this]

/-- `handle_missing_values` is the identity on a frame with no missing
values (both the median fill and the mode fill rewrite nothing). -/
theorem handle_missing_values_id {df : DataFrame}
    (h : ∀ p ∈ df, p.2.all (fun c => !c.isNan) = true) :
    handle_missing_values df = df := by
  unfold handle_missing_values
  refine map_id_of_mem (fun p hp => ?_)
  have hfill := fillNan_id (m := medianCell p.2) (h p hp)
  have hfill2 := fillNan_id
    (m := match modeCell p.2 with | some m => m | none => .str "Unknown") (h p hp)
  by_cases hb : isNumericColB p.2
  · simp [hb, hfill]
  · by_cases hemp : p.2.isEmpty
    · simp [hb, hemp]
    · simp [hb, hemp, hfill2]

/-- The raw frame in explicit form: `end_date` is appended as the last
column, each entry one whole day-offset `d` after `start_date`. -/
theorem rawFrame_explicit (chIdx : List ℕ) (bud sp : List ℚ) (im cl cv : List ℤ)
    (rev : List ℚ) (n : ℕ) (d : ℤ) :
    rawFrame chIdx bud sp im cl cv rev n d =
      sampleDict chIdx bud sp im cl cv rev n ++
        [("end_date", (List.range n).map (fun i => Cell.num (19358 + (i : ℚ) + (d : ℚ))))] := by
  unfold rawFrame setCol
  simp +decide [sampleDict, hasCol, getColD, getCol, cadd, List.map_map, Function.comp]

/-- Date and numeric coercion are the identity on the raw generated frame:
its date cells are dates and its numeric cells numbers already. -/
theorem coerced_id (chIdx : List ℕ) (bud sp : List ℚ) (im cl cv : List ℤ)
    (rev : List ℚ) (n : ℕ) (d : ℤ) :
    coerceCols toNumericCell numeric_columns
      (coerceCols toDatetimeCell date_columns
        (rawFrame chIdx bud sp im cl cv rev n d))
      = rawFrame chIdx bud sp im cl cv rev n d := by
  rw [rawFrame_explicit]
  simp +decide [coerceCols, date_columns, numeric_columns, sampleDict,
    hasCol, getCol, getColD, setCol, replaceCol, toDatetimeCell, toNumericCell,
    List.map_map, Function.comp]

theorem all_not_nan_num {α : Type} (g : α → ℚ) (l : List α) :
    ((l.map fun i => Cell.num (g i)).all fun c => !c.isNan) = true := by
  induction l <;> simp [Cell.isNan, *]

theorem all_not_nan_str {α : Type} (g : α → String) (l : List α) :
    ((l.map fun i => Cell.str (g i)).all fun c => !c.isNan) = true := by
  induction l <;> simp [Cell.isNan, *]

/-- On the raw generated frame (fully populated), preprocessing reduces to
adding the derived columns. -/
theorem raw_preprocess (chIdx : List ℕ) (bud sp : List ℚ) (im cl cv : List ℤ)
    (rev : List ℚ) (n : ℕ) (d : ℤ) :
    preprocess_data (rawFrame chIdx bud sp im cl cv rev n d)
      = add_derived_columns (rawFrame chIdx bud sp im cl cv rev n d) := by
  unfold preprocess_data
  rw [coerced_id]
  congr 1
  refine handle_missing_values_id (fun p hp => ?_)
  rw [rawFrame_explicit] at hp
  simp only [sampleDict, List.mem_append, List.mem_cons, List.not_mem_nil,
    or_false] at hp
  rcases hp with (hp|hp|hp|hp|hp|hp|hp|hp|hp|hp)|hp <;> subst hp <;>
    first
      | exact all_not_nan_num _ _
      | exact all_not_nan_str _ _

theorem getCol_add_derived_ne (df : DataFrame) {c : String}
    (h1 : c ≠ "roi") (h2 : c ≠ "ctr") (h3 : c ≠ "engagement_rate")
    (h4 : c ≠ "campaign_duration") (h5 : c ≠ "cpa") :
    getCol (add_derived_columns df) c = getCol df c := by
  unfold add_derived_columns
  rw [getCol_adc5_ne _ h5, getCol_adc4_ne _ h4, getCol_adc3_ne _ h3,
    getCol_adc2_ne _ h2, getCol_adc1_ne _ h1]

theorem hasCol_add_derived_ne (df : DataFrame) {c : String}
    (h1 : c ≠ "roi") (h2 : c ≠ "ctr") (h3 : c ≠ "engagement_rate")
    (h4 : c ≠ "campaign_duration") (h5 : c ≠ "cpa") :
    hasCol (add_derived_columns df) c = hasCol df c := by
  unfold add_derived_columns
  rw [hasCol_adc5_ne _ h5, hasCol_adc4_ne _ h4, hasCol_adc3_ne _ h3,
    hasCol_adc2_ne _ h2, hasCol_adc1_ne _ h1]

theorem all_isNum_num {α : Type} (g : α → ℚ) (l : List α) :
    ((l.map fun i => Cell.num (g i)).all Cell.isNum) = true := by
  induction l <;> simp [Cell.isNum, *]

/-- In the preprocessed generated frame, `end_date` strictly follows
`start_date` in every row whenever the scalar day offset is at least 1. -/
theorem raw_end_after_start (chIdx : List ℕ) (bud sp : List ℚ) (im cl cv : List ℤ)
    (rev : List ℚ) (n : ℕ) (d : ℤ) (hd : 1 ≤ d) :
    endAfterStartB (preprocess_data (rawFrame chIdx bud sp im cl cv rev n d)) = true := by
  rw [raw_preprocess]
  unfold endAfterStartB
  rw [getCol_add_derived_ne _ (by decide) (by decide) (by decide) (by decide) (by decide),
    getCol_add_derived_ne _ (by decide) (by decide) (by decide) (by decide) (by decide)]
  have hs : getCol (rawFrame chIdx bud sp im cl cv rev n d) "start_date"
      = some ((List.range n).map (fun i => Cell.num (19358 + (i : ℚ)))) := by
    rw [rawFrame_explicit]
    simp +decide [sampleDict, getCol]
  have he : getCol (rawFrame chIdx bud sp im cl cv rev n d) "end_date"
      = some ((List.range n).map (fun i => Cell.num (19358 + (i : ℚ) + (d : ℚ)))) := by
    rw [rawFrame_explicit]
    simp +decide [sampleDict, getCol]
  rw [hs, he]
  simp only [List.zip_map']
  rw [List.all_eq_true]
  intro i hi
  simp only [List.mem_map] at hi
  obtain ⟨a, _, rfl⟩ := hi
  have hdq : (0 : ℚ) < (d : ℚ) := by exact_mod_cast hd
  simp only [cellLtB, decide_eq_true_eq]
  linarith

/-- The preprocessed generated frame has all six financial and volume
columns populated with finite numbers. -/
theorem raw_populated (chIdx : List ℕ) (bud sp : List ℚ) (im cl cv : List ℤ)
    (rev : List ℚ) (n : ℕ) (d : ℤ) :
    allPopulatedB (preprocess_data (rawFrame chIdx bud sp im cl cv rev n d)) = true := by
  rw [raw_preprocess]
  unfold allPopulatedB
  rw [List.all_eq_true]
  intro c hc
  simp only [List.mem_cons, List.not_mem_nil, or_false] at hc
  rcases hc with hc|hc|hc|hc|hc|hc <;> subst hc <;>
    (rw [Bool.and_eq_true]
     refine ⟨?_, ?_⟩
     · rw [hasCol_add_derived_ne _ (by decide) (by decide) (by decide) (by decide) (by decide),
         rawFrame_explicit]
       simp +decide [sampleDict, hasCol]
     · rw [getColD_congr (getCol_add_derived_ne _ (by decide) (by decide) (by decide)
           (by decide) (by decide)), rawFrame_explicit]
       simp +decide [sampleDict, getColD, getCol, List.all_map, Function.comp,
         Cell.isNum, all_const_true, all_isNum_num]
       try (intro x x1 x2 hm hc hn; subst hn; rfl))

/-! Per-cell behaviour of the derived ratios on a zero denominator. -/

/-- CPA is the one ratio whose infinities are replaced: a zero conversion
count always yields NaN (whatever non-string spend cell). -/
theorem cpaCell_den_zero (s : Cell) (h : s.isStr = false) :
    cpaCell s (.num 0) = .nan := by
  cases s with
  | num a =>
    rcases lt_trichotomy a 0 with ha | ha | ha
    · simp [cpaCell, cdiv, cround, creplaceInf, ha, not_lt.mpr (le_of_lt ha)]
    · simp [cpaCell, cdiv, cround, creplaceInf, ha]
    · simp [cpaCell, cdiv, cround, creplaceInf, ha, not_lt.mpr (le_of_lt ha)]
  | nan => rfl
  | pinf => norm_num [cpaCell, cdiv, cround, creplaceInf]
  | ninf => norm_num [cpaCell, cdiv, cround, creplaceInf]
  | str s => simp [Cell.isStr] at h

/-- CTR with positive clicks and zero impressions is +inf (not replaced). -/
theorem ctrCell_pos_zero {c : ℚ} (hc : 0 < c) :
    ctrCell (.num c) (.num 0) = .pinf := by
  norm_num [ctrCell, cdiv, cmul, cround, hc]

/-- ROI with positive revenue and zero spend is +inf (not replaced). -/
theorem roiCell_pos_zero {r : ℚ} (hr : 0 < r) :
    roiCell (.num r) (.num 0) = .pinf := by
  norm_num [roiCell, csub, cdiv, cmul, cround, hr]

/-- ROAS with positive revenue and zero spend is +inf (not replaced). -/
theorem roasCell_pos_zero {r : ℚ} (hr : 0 < r) :
    roasCell (.num r) (.num 0) = .pinf := by
  norm_num [roasCell, cdiv, cround, hr]

theorem getColD_of_getCol {df : DataFrame} {c : String} {v : Col}
    (h : getCol df c = some v) : getColD df c = v := by
  unfold getColD; rw [h]; rfl

/-! Column-level lookups into `calculate_derived_metrics`. -/

theorem calc_roi_lookup {df : DataFrame} {rev sp : Col}
    (hrev : getCol df "revenue" = some rev) (hsp : getCol df "spend" = some sp) :
    getCol (calculate_derived_metrics df) "roi"
      = some (List.zipWith roiCell rev sp) := by
  unfold calculate_derived_metrics
  rw [getCol_cdm4_ne _ (by decide), getCol_cdm3_ne _ (by decide),
    getCol_cdm2_ne _ (by decide)]
  unfold cdm1
  rw [if_pos (by rw [hasCol_of_getCol_some hrev, hasCol_of_getCol_some hsp]; rfl),
    getColD_of_getCol hrev, getColD_of_getCol hsp]
  exact getCol_setCol_self _ _ _

theorem calc_ctr_lookup {df : DataFrame} {cl im : Col}
    (hcl : getCol df "clicks" = some cl) (him : getCol df "impressions" = some im) :
    getCol (calculate_derived_metrics df) "ctr"
      = some (List.zipWith ctrCell cl im) := by
  unfold calculate_derived_metrics
  rw [getCol_cdm4_ne _ (by decide), getCol_cdm3_ne _ (by decide)]
  have hcl1 : getCol (cdm1 df) "clicks" = some cl := by
    rw [getCol_cdm1_ne _ (by decide)]; exact hcl
  have him1 : getCol (cdm1 df) "impressions" = some im := by
    rw [getCol_cdm1_ne _ (by decide)]; exact him
  unfold cdm2
  rw [if_pos (by rw [hasCol_of_getCol_some hcl1, hasCol_of_getCol_some him1]; rfl),
    getColD_of_getCol hcl1, getColD_of_getCol him1]
  exact getCol_setCol_self _ _ _

theorem calc_cpa_lookup {df : DataFrame} {sp cv : Col}
    (hsp : getCol df "spend" = some sp) (hcv : getCol df "conversions" = some cv) :
    getCol (calculate_derived_metrics df) "cpa"
      = some (List.zipWith cpaCell sp cv) := by
  unfold calculate_derived_metrics
  rw [getCol_cdm4_ne _ (by decide)]
  have hsp2 : getCol (cdm2 (cdm1 df)) "spend" = some sp := by
    rw [getCol_cdm2_ne _ (by decide), getCol_cdm1_ne _ (by decide)]; exact hsp
  have hcv2 : getCol (cdm2 (cdm1 df)) "conversions" = some cv := by
    rw [getCol_cdm2_ne _ (by decide), getCol_cdm1_ne _ (by decide)]; exact hcv
  unfold cdm3
  rw [if_pos (by rw [hasCol_of_getCol_some hsp2, hasCol_of_getCol_some hcv2]; rfl),
    getColD_of_getCol hsp2, getColD_of_getCol hcv2]
  exact getCol_setCol_self _ _ _

theorem calc_roas_lookup {df : DataFrame} {rev sp : Col}
    (hrev : getCol df "revenue" = some rev) (hsp : getCol df "spend" = some sp) :
    getCol (calculate_derived_metrics df) "roas"
      = some (List.zipWith roasCell rev sp) := by
  unfold calculate_derived_metrics
  have hrev3 : getCol (cdm3 (cdm2 (cdm1 df))) "revenue" = some rev := by
    rw [getCol_cdm3_ne _ (by decide), getCol_cdm2_ne _ (by decide),
      getCol_cdm1_ne _ (by decide)]
    exact hrev
  have hsp3 : getCol (cdm3 (cdm2 (cdm1 df))) "spend" = some sp := by
    rw [getCol_cdm3_ne _ (by decide), getCol_cdm2_ne _ (by decide),
      getCol_cdm1_ne _ (by decide)]
    exact hsp
  unfold cdm4
  rw [if_pos (by rw [hasCol_of_getCol_some hrev3, hasCol_of_getCol_some hsp3]; rfl),
    getColD_of_getCol hrev3, getColD_of_getCol hsp3]
  exact getCol_setCol_self _ _ _

/-- With the roi column already present, `add_derived_columns` leaves it
untouched. -/
theorem adc_roi_preserved {df : DataFrame} (h : hasCol df "roi" = true) :
    getCol (add_derived_columns df) "roi" = getCol df "roi" := by
  have h1 : adc1 df = df := by
    unfold adc1
    rw [h]
    simp
  unfold add_derived_columns
  rw [h1, getCol_adc5_ne _ (by decide), getCol_adc4_ne _ (by decide),
    getCol_adc3_ne _ (by decide), getCol_adc2_ne _ (by decide)]

/-! Classification and router lemmas. -/

theorem classify_eq_firstMatch (q : String) : classify_intent q = firstMatchIntent q := by
  unfold classify_intent firstMatchIntent intentRules
  by_cases h1 : (roiKeywords.any (kwIn q)) = true <;>
    by_cases h2 : (budgetKeywords.any (kwIn q)) = true <;>
      by_cases h3 : (channelKeywords.any (kwIn q)) = true <;>
        by_cases h4 : (optimizeKeywords.any (kwIn q)) = true <;>
          by_cases h5 : (trendKeywords.any (kwIn q)) = true <;>
            simp [h1, h2, h3, h4, h5, List.find?]

theorem get_ai_response_dispatch (q : String) (d : Option DataFrame) :
    get_ai_response q d = runIntent (classify_intent q) d := by
  unfold get_ai_response classify_intent runIntent
  split_ifs <;> rfl

instance {α : Type} [DecidableEq α] : DecidableEq (Except PyError α) := fun a b =>
  match a, b with
  | .ok x, .ok y =>
    if h : x = y then .isTrue (by rw [h]) else .isFalse (by simp [h])
  | .error x, .error y =>
    if h : x = y then .isTrue (by rw [h]) else .isFalse (by simp [h])
  | .ok _, .error _ => .isFalse (by simp)
  | .error _, .ok _ => .isFalse (by simp)

/-! Frame lemmas for `clean_numeric_columns`. -/

theorem colNames_replaceCol (df : DataFrame) (c : String) (v : Col) :
    colNames (replaceCol df c v) = colNames df := by
  induction df with
  | nil => rfl
  | cons p rest ih =>
    by_cases hp : p.1 == c
    · have : p.1 = c := by simpa using hp
      simp [replaceCol, colNames, hp, this] at ih ⊢
      exact ih
    · simp [replaceCol, colNames, hp] at ih ⊢
      exact ih

theorem colNames_setCol_of_hasCol {df : DataFrame} {c : String} (v : Col)
    (h : hasCol df c = true) : colNames (setCol df c v) = colNames df := by
  unfold setCol
  rw [h]
  simp [colNames_replaceCol]

theorem colNames_clean (df : DataFrame) (columns : List String) :
    colNames (clean_numeric_columns df columns) = colNames df := by
  induction columns generalizing df with
  | nil => rfl
  | cons x rest ih =>
    show colNames (List.foldl _ (if hasCol df x then _ else df) rest) = colNames df
    by_cases hx : hasCol df x
    · rw [show (List.foldl _ (if hasCol df x then setCol df x ((getColD df x).map cleanCellFn) else df) rest : DataFrame) = clean_numeric_columns (if hasCol df x then setCol df x ((getColD df x).map cleanCellFn) else df) rest from rfl]
      rw [ih, hx]
      simp [colNames_setCol_of_hasCol _ hx]
    · rw [show (List.foldl _ (if hasCol df x then setCol df x ((getColD df x).map cleanCellFn) else df) rest : DataFrame) = clean_numeric_columns (if hasCol df x then setCol df x ((getColD df x).map cleanCellFn) else df) rest from rfl]
      rw [ih]
      simp [hx]

theorem getCol_clean_not_mem (df : DataFrame) (columns : List String) {c : String}
    (h : c ∉ columns) :
    getCol (clean_numeric_columns df columns) c = getCol df c := by
  induction columns generalizing df with
  | nil => rfl
  | cons x rest ih =>
    have hxc : c ≠ x := fun he => h (by simp [he])
    have hrest : c ∉ rest := fun hr => h (by simp [hr])
    show getCol (clean_numeric_columns (if hasCol df x then _ else df) rest) c = getCol df c
    rw [ih _ hrest]
    by_cases hx : hasCol df x
    · simp [hx, getCol_setCol_ne df _ hxc]
    · simp [hx]

theorem getCol_clean_mem (df : DataFrame) (columns : List String) {c : String}
    (hnd : columns.Nodup) (hc : c ∈ columns) (hh : hasCol df c = true) :
    getCol (clean_numeric_columns df columns) c
      = some ((getColD df c).map cleanCellFn) := by
  induction columns generalizing df with
  | nil => simp at hc
  | cons x rest ih =>
    rcases List.mem_cons.mp hc with he | hmem
    · subst he
      have hnotin : c ∉ rest := (List.nodup_cons.mp hnd).1
      show getCol (clean_numeric_columns (if hasCol df c then _ else df) rest) c = _
      rw [getCol_clean_not_mem _ _ hnotin]
      simp [hh, getCol_setCol_self]
    · have hxc : c ≠ x := by
        intro he
        subst he
        exact (List.nodup_cons.mp hnd).1 hmem
      have hnd2 : rest.Nodup := (List.nodup_cons.mp hnd).2
      show getCol (clean_numeric_columns (if hasCol df x then _ else df) rest) c = _
      by_cases hx : hasCol df x
      · have hacc : getCol (setCol df x ((getColD df x).map cleanCellFn)) c = getCol df c :=
          getCol_setCol_ne df _ hxc
        rw [show (if hasCol df x then setCol df x ((getColD df x).map cleanCellFn) else df) = setCol df x ((getColD df x).map cleanCellFn) from by simp [hx]]
        rw [ih _ hnd2 hmem (by rw [hasCol_of_eq_getCol hacc]; exact hh),
          getColD_congr hacc]
      · rw [show (if hasCol df x then setCol df x ((getColD df x).map cleanCellFn) else df) = df from by simp [hx]]
        exact ih df hnd2 hmem hh

/-! Characterization of `validate_email_list`. -/

theorem validate_email_list_eq (l : List String) :
    validate_email_list l
      = ((l.map pyStrip).filter (fun s => s != "" && validate_email s),
         (l.map pyStrip).filter (fun s => s != "" && !validate_email s)) := by
  induction l with
  | nil => rfl
  | cons e rest ih =>
    show (if pyStrip e != "" && validate_email (pyStrip e) then _ else _) = _
    by_cases h1 : (pyStrip e != "" && validate_email (pyStrip e)) = true
    · simp only [h1, if_true, List.map_cons, List.filter_cons]
      rw [ih]
      have h2 : (pyStrip e != "" && !validate_email (pyStrip e)) = false := by
        rcases (by simpa using h1 :
          (pyStrip e != "") = true ∧ validate_email (pyStrip e) = true) with ⟨ha, hb⟩
        simp [ha, hb]
      simp [h1, h2]
    · simp only [h1]
      by_cases h2 : (pyStrip e != "") = true
      · have hv : validate_email (pyStrip e) = false := by
          by_contra hx
          exact h1 (by simp [h2, Bool.not_eq_false _ |>.mp hx])
        simp only [List.map_cons, List.filter_cons, ih]
        simp [h1, h2, hv]
      · have he : pyStrip e = "" := by
          by_contra hx
          exact h2 (by simpa using hx)
        simp only [List.map_cons, List.filter_cons, ih]
        simp [h1, h2, he]

/-! Lemmas for `validate_data`. -/

theorem colAnyNeg_ok {col : Col} (h : (col.all fun x => !x.isStr) = true) :
    colAnyNeg col = .ok (col.any cellNegB) := by
  unfold colAnyNeg
  rw [if_neg]
  intro hany
  rw [List.any_eq_true] at hany
  obtain ⟨x, hx, hsx⟩ := hany
  have := List.all_eq_true.mp h x hx
  simp [hsx] at this

theorem negWarnings_ok (df : DataFrame) (l : List String)
    (h : ∀ c ∈ l, ((getColD df c).all fun x => !x.isStr) = true) :
    ∃ ws, negWarnings df l = .ok ws := by
  induction l with
  | nil => exact ⟨[], rfl⟩
  | cons c rest ih =>
    obtain ⟨ws, hws⟩ := ih (fun x hx => h x (by simp [hx]))
    by_cases hc : hasCol df c = true
    · refine ⟨(if (getColD df c).any cellNegB
          then ["Negative values found in " ++ c ++ " column"] else []) ++ ws, ?_⟩
      simp only [negWarnings, hc, if_true, colAnyNeg_ok (h c (by simp)), hws,
        bind, Except.bind, pure, Except.pure]
    · refine ⟨ws, ?_⟩
      simp only [negWarnings, hc, Bool.false_eq_true, if_false, hws,
        bind, Except.bind, pure, Except.pure]
      rfl

theorem validate_data_ok_shape (df : DataFrame) (ws : List String)
    (hws : negWarnings df ["budget", "spend", "revenue"] = .ok ws) :
    validate_data df = .ok
      { is_valid := (requiredColumns.filter (fun c => !hasCol df c)).isEmpty,
        errors := if (requiredColumns.filter (fun c => !hasCol df c)).isEmpty then []
          else ["Missing required columns: "
            ++ String.intercalate ", " (requiredColumns.filter (fun c => !hasCol df c))],
        warnings :=
          (if hasCol df "budget" && !isNumericColB (getColD df "budget")
            then ["Budget column should be numeric"] else [])
          ++ (if hasCol df "spend" && !isNumericColB (getColD df "spend")
            then ["Spend column should be numeric"] else []) ++ ws,
        info := { total_rows := nRows df, total_columns := df.length,
                  missing_values := missingCount df,
                  duplicate_rows := dupRowCount df } } := by
  simp only [validate_data, hws, bind, Except.bind, pure, Except.pure]

/-!
## The claims

Concrete frames used by the counterexamples and witnesses.
-/

/-- Scenario E input: a record with impressions = 0 and clicks = 5. -/
def ctrZeroDf : DataFrame := [("clicks", [.num 5]), ("impressions", [.num 0])]

/-- Scenario A input: 4 records with the given spend and revenue. -/
def scenarioADf : DataFrame :=
  [("spend", [.num 800, .num 1200, .num 1800, .num 1000]),
   ("revenue", [.num 1200, .num 1800, .num 2400, .num 1300])]

/-- A frame with a caller-supplied roi value next to its source columns. -/
def roiSuppliedDf : DataFrame :=
  [("revenue", [.num 100]), ("spend", [.num 50]), ("roi", [.num 999])]

/-- A zero-row frame that has both a roi and a channel column. -/
def emptyRoiChannelDf : DataFrame := [("roi", []), ("channel", [])]

/-- Witness frame for the zero-denominator behaviours. -/
def zeroDenDf : DataFrame :=
  [("spend", [.num 3]), ("conversions", [.num 0]), ("clicks", [.num 5]),
   ("impressions", [.num 0]), ("revenue", [.num 2])]

/-- Witness frame with zero spend and positive revenue. -/
def zeroSpendDf : DataFrame := [("revenue", [.num 2]), ("spend", [.num 0])]

/-- The `clean_numeric_columns` frame of the repository's own test. -/
def c9Df : DataFrame :=
  [("budget", [.str "$1,000", .str "$2,500", .str "3000"]),
   ("other", [.str "a", .str "b", .str "c"])]

/-- A frame whose budget column holds a string. -/
def strBudgetDf : DataFrame :=
  [("campaign_id", [.str "C1"]), ("budget", [.str "abc"]), ("spend", [.num 1])]

/-- The source columns of the two derived-metric functions hold no string
cells (the domain on which the pandas arithmetic they perform cannot
raise). -/
def noStrSources (df : DataFrame) : Bool :=
  ["revenue", "spend", "clicks", "impressions", "conversions"].all
    (fun c => (getColD df c).all (fun x => !x.isStr))

/-- C1 (counterexample): the claim says a zero denominator uniformly yields
the NaN sentinel, but a record with impressions = 0 and clicks = 5 gets
CTR = +inf from both derived-metric functions, and +inf is not NaN. -/
theorem claim_C1_counterexample :
    getCol (calculate_derived_metrics ctrZeroDf) "ctr" = some [.pinf]
  ∧ getCol (add_derived_columns ctrZeroDf) "ctr" = some [.pinf]
  ∧ Cell.pinf ≠ Cell.nan := by
  refine ⟨?_, ?_, by simp⟩
  · norm_num +decide [ctrZeroDf, calculate_derived_metrics, cdm1, cdm2, cdm3, cdm4,
      hasCol, getCol, getColD, setCol, replaceCol, ctrCell, cround, roundTo, rhe,
      csub, cdiv, cmul, creplaceInf, List.zipWith]
  · norm_num +decide [ctrZeroDf, add_derived_columns, adc1, adc2, adc3, adc4, adc5,
      hasCol, getCol, getColD, setCol, replaceCol, ctrCell, cround, roundTo, rhe,
      csub, cdiv, cmul, creplaceInf, List.zipWith]

/-- C1 (amended): in the Derived Metric Calculator
(`calculate_derived_metrics`), only CPA resolves a zero denominator to the
NaN sentinel (its infinities are replaced); CTR, ROI and ROAS with a zero
denominator and a positive numerator resolve to +inf, without raising.  In
particular a record with impressions = 0 and clicks = 5 gets CTR = +inf. -/
theorem claim_C1_amended :
    (∀ (df : DataFrame) (sp cv : Col) (i : ℕ) (s : Cell),
      getCol df "spend" = some sp → getCol df "conversions" = some cv →
      sp[i]? = some s → s.isStr = false → cv[i]? = some (.num 0) →
      ∃ col, getCol (calculate_derived_metrics df) "cpa" = some col
        ∧ col[i]? = some Cell.nan)
  ∧ (∀ (df : DataFrame) (cl im : Col) (i : ℕ) (c : ℚ),
      getCol df "clicks" = some cl → getCol df "impressions" = some im →
      cl[i]? = some (.num c) → 0 < c → im[i]? = some (.num 0) →
      ∃ col, getCol (calculate_derived_metrics df) "ctr" = some col
        ∧ col[i]? = some Cell.pinf)
  ∧ (∀ (df : DataFrame) (rev sp : Col) (i : ℕ) (r : ℚ),
      getCol df "revenue" = some rev → getCol df "spend" = some sp →
      rev[i]? = some (.num r) → 0 < r → sp[i]? = some (.num 0) →
      (∃ col, getCol (calculate_derived_metrics df) "roi" = some col
        ∧ col[i]? = some Cell.pinf)
      ∧ (∃ col, getCol (calculate_derived_metrics df) "roas" = some col
        ∧ col[i]? = some Cell.pinf)) := by
  refine ⟨?_, ?_, ?_⟩
  · intro df sp cv i s hsp hcv hspi hstr hcvi
    refine ⟨_, calc_cpa_lookup hsp hcv, ?_⟩
    rw [zipWith_getElem? cpaCell sp cv i hspi hcvi, cpaCell_den_zero s hstr]
  · intro df cl im i c hcl him hcli hc himi
    refine ⟨_, calc_ctr_lookup hcl him, ?_⟩
    rw [zipWith_getElem? ctrCell cl im i hcli himi, ctrCell_pos_zero hc]
  · intro df rev sp i r hrev hsp hrevi hr hspi
    refine ⟨⟨_, calc_roi_lookup hrev hsp, ?_⟩, ⟨_, calc_roas_lookup hrev hsp, ?_⟩⟩
    · rw [zipWith_getElem? roiCell rev sp i hrevi hspi, roiCell_pos_zero hr]
    · rw [zipWith_getElem? roasCell rev sp i hrevi hspi, roasCell_pos_zero hr]

/-- Witness for C1 (amended) at concrete frames. -/
theorem claim_C1_amended_witness :
    (∃ col, getCol (calculate_derived_metrics zeroDenDf) "cpa" = some col
      ∧ col[0]? = some Cell.nan)
  ∧ (∃ col, getCol (calculate_derived_metrics zeroDenDf) "ctr" = some col
      ∧ col[0]? = some Cell.pinf)
  ∧ (∃ col, getCol (calculate_derived_metrics zeroSpendDf) "roi" = some col
      ∧ col[0]? = some Cell.pinf)
  ∧ (∃ col, getCol (calculate_derived_metrics zeroSpendDf) "roas" = some col
      ∧ col[0]? = some Cell.pinf) :=
  ⟨claim_C1_amended.1 zeroDenDf [.num 3] [.num 0] 0 (.num 3) rfl rfl rfl rfl rfl,
   claim_C1_amended.2.1 zeroDenDf [.num 5] [.num 0] 0 5 rfl rfl rfl (by norm_num) rfl,
   (claim_C1_amended.2.2 zeroSpendDf [.num 2] [.num 0] 0 2 rfl rfl rfl (by norm_num) rfl).1,
   (claim_C1_amended.2.2 zeroSpendDf [.num 2] [.num 0] 0 2 rfl rfl rfl (by norm_num) rfl).2⟩

/-- C2 (counterexample): `calculate_derived_metrics` overwrites a
caller-supplied roi value (999 becomes the recomputed 100). -/
theorem claim_C2_counterexample :
    getCol (calculate_derived_metrics roiSuppliedDf) "roi" = some [.num 100]
  ∧ getCol roiSuppliedDf "roi" = some [.num 999]
  ∧ ([Cell.num 100] : Col) ≠ [Cell.num 999] := by
  refine ⟨?_, by decide, by simp⟩
  norm_num +decide [roiSuppliedDf, calculate_derived_metrics, cdm1, cdm2, cdm3, cdm4,
    hasCol, getCol, getColD, setCol, replaceCol, roiCell, cround, roundTo, rhe,
    csub, cdiv, cmul, List.zipWith]

/-- C2 (amended): `add_derived_columns` fills roi (and its other guarded
metrics) only when absent, and both derived-metric functions are
idempotent; but `calculate_derived_metrics` recomputes roi, ctr, cpa, roas
unconditionally, overwriting caller-supplied values (see the
counterexample).  Idempotence of `calculate_derived_metrics` is stated on
frames whose source columns are free of string cells, the domain where the
unguarded pandas arithmetic cannot raise. -/
theorem claim_C2_amended :
    (∀ df : DataFrame, hasCol df "roi" = true →
      getCol (add_derived_columns df) "roi" = getCol df "roi")
  ∧ (∀ df : DataFrame, add_derived_columns (add_derived_columns df) = add_derived_columns df)
  ∧ (∀ df : DataFrame, noStrSources df = true →
      calculate_derived_metrics (calculate_derived_metrics df)
        = calculate_derived_metrics df) :=
  ⟨fun _ h => adc_roi_preserved h,
   add_derived_columns_idem,
   fun df _ => calculate_derived_metrics_idem df⟩

/-- Witness for C2 (amended) at concrete frames. -/
theorem claim_C2_amended_witness :
    getCol (add_derived_columns roiSuppliedDf) "roi" = getCol roiSuppliedDf "roi"
  ∧ add_derived_columns (add_derived_columns scenarioADf) = add_derived_columns scenarioADf
  ∧ calculate_derived_metrics (calculate_derived_metrics scenarioADf)
      = calculate_derived_metrics scenarioADf :=
  ⟨claim_C2_amended.1 roiSuppliedDf (by decide),
   claim_C2_amended.2.1 scenarioADf,
   claim_C2_amended.2.2 scenarioADf (by decide)⟩

/-- C3 (counterexample): on a zero-row dataset that has both a roi and a
channel column, `get_ai_response` does not return a report string: the
roi handler raises an IndexError at `channel_roi.index[0]`. -/
theorem claim_C3_counterexample :
    nRows emptyRoiChannelDf = 0
  ∧ hasCol emptyRoiChannelDf "roi" = true
  ∧ hasCol emptyRoiChannelDf "channel" = true
  ∧ get_ai_response "What is my ROI?" (some emptyRoiChannelDf)
      = .error .indexError := by
  decide

/-- C3 (amended): when no dataset has been uploaded (`campaign_data` is
None), every query gets a report string back and nothing is raised — each
handler short-circuits to its "upload data" message.  (With a dataset
present the handlers are not total: see the counterexample.) -/
theorem claim_C3_amended (q : String) :
    (get_ai_response q none).isOk = true := by
  unfold get_ai_response
  split_ifs <;> rfl

/-- C4 (code behaviour at the failing input): `email_utils.py` never imports
numpy, so the `np` lookup inside `save_campaign_history` raises a NameError;
`send_campaign` catches it and returns False with nothing appended to the
history — on the very input of the repository's own
`test_send_campaign`, whose recipients are valid. -/
theorem claim_C4_code_behavior :
    send_campaign constRng 0 "2024-01-01 00:00:00" []
      "Test Campaign" "Test Subject" "Test Content"
      ["test1@example.com", "test2@example.com"] = (false, [], 0)
  ∧ resolveGlobal "np" = .error .nameError
  ∧ (validate_email_list ["test1@example.com", "test2@example.com"]).1 ≠ [] := by
  refine ⟨by decide, rfl, by decide⟩

/-- C5: classification is the case-insensitive substring cascade over the
fixed ordered category list, first match winning — `classify_intent`
coincides with first-match over the ordered rule list, `get_ai_response`
dispatches by it, and a query containing both a Budget keyword and an ROI
keyword classifies as ROI. -/
theorem claim_C5 :
    (∀ q : String, classify_intent q = firstMatchIntent q)
  ∧ (∀ (q : String) (d : Option DataFrame),
      get_ai_response q d = runIntent (classify_intent q) d)
  ∧ (∀ q : String, budgetKeywords.any (kwIn q) = true →
      roiKeywords.any (kwIn q) = true → classify_intent q = .roi) := by
  refine ⟨classify_eq_firstMatch, get_ai_response_dispatch, ?_⟩
  intro q _ hr
  unfold classify_intent
  rw [if_pos hr]

/-- Witness for C5 at a concrete query containing both keyword kinds. -/
theorem claim_C5_witness :
    classify_intent "what roi does my budget get" = .roi :=
  claim_C5.2.2 "what roi does my budget get" (by decide) (by decide)

/-- C6 (counterexample): with a string-valued budget column the negative-
value check `(df['budget'] < 0).any()` raises a TypeError, so
`validate_data` does not return a report at all — contradicting the claim
that non-numeric values only add warnings. -/
theorem claim_C6_counterexample :
    validate_data strBudgetDf = .error .typeError := by
  decide

/-- C6 (amended): on frames whose financial columns hold no string cells,
`validate_data` returns a report whose `is_valid` is False exactly when one
of campaign_id, budget, spend is absent, and exactly then is there an error
string; dtype and negative-value findings are warnings only.  (A
string-valued financial column instead raises, see the counterexample.) -/
theorem claim_C6_amended (df : DataFrame)
    (h : ∀ c ∈ ["budget", "spend", "revenue"],
      ((getColD df c).all fun x => !x.isStr) = true) :
    ∃ r, validate_data df = .ok r
      ∧ (r.is_valid = false
          ↔ ¬(hasCol df "campaign_id" = true ∧ hasCol df "budget" = true
              ∧ hasCol df "spend" = true))
      ∧ (r.is_valid = false ↔ r.errors ≠ []) := by
  obtain ⟨ws, hws⟩ := negWarnings_ok df _ h
  refine ⟨_, validate_data_ok_shape df ws hws, ?_, ?_⟩
  · by_cases h1 : hasCol df "campaign_id" = true <;>
      by_cases h2 : hasCol df "budget" = true <;>
        by_cases h3 : hasCol df "spend" = true <;>
          simp [requiredColumns, h1, h2, h3]
  · by_cases h1 : hasCol df "campaign_id" = true <;>
      by_cases h2 : hasCol df "budget" = true <;>
        by_cases h3 : hasCol df "spend" = true <;>
          simp [requiredColumns, h1, h2, h3]

/-- Witness for C6 (amended): a complete numeric frame validates. -/
theorem claim_C6_amended_witness :
    ∃ r, validate_data
        [("campaign_id", [Cell.str "C001"]), ("budget", [Cell.num 1000]),
         ("spend", [Cell.num 800])] = .ok r
      ∧ (r.is_valid = false
          ↔ ¬(hasCol [("campaign_id", [Cell.str "C001"]), ("budget", [Cell.num 1000]),
                ("spend", [Cell.num 800])] "campaign_id" = true
              ∧ hasCol [("campaign_id", [Cell.str "C001"]), ("budget", [Cell.num 1000]),
                  ("spend", [Cell.num 800])] "budget" = true
              ∧ hasCol [("campaign_id", [Cell.str "C001"]), ("budget", [Cell.num 1000]),
                  ("spend", [Cell.num 800])] "spend" = true))
      ∧ (r.is_valid = false ↔ r.errors ≠ []) :=
  claim_C6_amended
    [("campaign_id", [Cell.str "C001"]), ("budget", [Cell.num 1000]),
     ("spend", [Cell.num 800])] (by decide)

/-- C7: the synthetic generator re-seeds with the fixed seed 42, so for any
generator implementation two calls with the same record count produce the
same dataset, whatever the incoming generator states; the result has all
financial and volume fields populated with finite numbers, and end_date is
strictly after start_date in every record. -/
theorem claim_C7 {σ : Type} (R : RngSpec σ) (s1 s2 : σ) (n : ℕ) :
    (generate_sample_data R s1 n).1 = (generate_sample_data R s2 n).1
  ∧ endAfterStartB (generate_sample_data R s1 n).1 = true
  ∧ allPopulatedB (generate_sample_data R s1 n).1 = true := by
  refine ⟨rfl, ?_, ?_⟩
  · simp only [generate_sample_data]
    exact raw_end_after_start _ _ _ _ _ _ _ _ _
      (R.randint_mem _ 1 30 (by norm_num)).1
  · simp only [generate_sample_data]
    exact raw_populated _ _ _ _ _ _ _ _ _

/-- Witness for C7 at a concrete generator implementation and size. -/
theorem claim_C7_witness :
    (generate_sample_data constRng 0 2).1 = (generate_sample_data constRng 7 2).1
  ∧ endAfterStartB (generate_sample_data constRng 0 2).1 = true
  ∧ allPopulatedB (generate_sample_data constRng 0 2).1 = true :=
  claim_C7 constRng 0 7 2

/-- C8: Scenario A — on the 4-record dataset with
spend = [800, 1200, 1800, 1000] and revenue = [1200, 1800, 2400, 1300],
both derived-metric functions produce
ROI = [50.0, 50.0, 33.33, 30.0] (2-decimal rounding of
(revenue - spend) / spend * 100). -/
theorem claim_C8 :
    getCol (add_derived_columns scenarioADf) "roi"
      = some [.num 50, .num 50, .num (3333/100), .num 30]
  ∧ getCol (calculate_derived_metrics scenarioADf) "roi"
      = some [.num 50, .num 50, .num (3333/100), .num 30] := by
  constructor
  · norm_num +decide [scenarioADf, add_derived_columns, adc1, adc2, adc3, adc4, adc5,
      hasCol, getCol, getColD, setCol, replaceCol, roiCell, cround, roundTo, rhe,
      csub, cdiv, cmul, creplaceInf, List.zipWith]
  · norm_num +decide [scenarioADf, calculate_derived_metrics, cdm1, cdm2, cdm3, cdm4,
      hasCol, getCol, getColD, setCol, replaceCol, roiCell, cround, roundTo, rhe,
      csub, cdiv, cmul, creplaceInf, List.zipWith]

/-- C9: `clean_numeric_columns` returns a frame with the same column schema
in the same order; every column not named in its argument is unchanged, and
every named, present column (for a duplicate-free name list) is exactly the
input column cleaned cell by cell (stringified, `$`/`,` stripped, coerced
to numeric with unparsable cells becoming NaN).  The input frame itself is
untouched (the function works on a copy, modelled by purity). -/
theorem claim_C9 (df : DataFrame) (columns : List String) :
    colNames (clean_numeric_columns df columns) = colNames df
  ∧ (∀ c, c ∉ columns → getCol (clean_numeric_columns df columns) c = getCol df c)
  ∧ (columns.Nodup → ∀ c ∈ columns, hasCol df c = true →
      getCol (clean_numeric_columns df columns) c
        = some ((getColD df c).map cleanCellFn)) :=
  ⟨colNames_clean df columns,
   fun _ hc => getCol_clean_not_mem df columns hc,
   fun hnd _ hc hh => getCol_clean_mem df columns hnd hc hh⟩

/-- Witness for C9 on the repository's own test frame. -/
theorem claim_C9_witness :
    colNames (clean_numeric_columns c9Df ["budget"]) = colNames c9Df
  ∧ getCol (clean_numeric_columns c9Df ["budget"]) "other" = getCol c9Df "other"
  ∧ getCol (clean_numeric_columns c9Df ["budget"]) "budget"
      = some ((getColD c9Df "budget").map cleanCellFn) :=
  ⟨(claim_C9 c9Df ["budget"]).1,
   (claim_C9 c9Df ["budget"]).2.1 "other" (by decide),
   (claim_C9 c9Df ["budget"]).2.2 (by decide) "budget" (by decide) (by decide)⟩

/-- C10: `validate_email_list` partitions its input: the valid output is
exactly the stripped entries that are nonempty and match the pattern, in
order, and the invalid output exactly the stripped nonempty non-matching
ones, so each nonempty-after-strip entry lands in exactly one list and
whitespace-only entries in neither — the combined output can be shorter
than the input, as the concrete instance shows. -/
theorem claim_C10 :
    (∀ l : List String, validate_email_list l
      = ((l.map pyStrip).filter (fun s => s != "" && validate_email s),
         (l.map pyStrip).filter (fun s => s != "" && !validate_email s)))
  ∧ validate_email_list [" ", "a@b.co"] = (["a@b.co"], [])
  ∧ (validate_email_list [" ", "a@b.co"]).1.length
      + (validate_email_list [" ", "a@b.co"]).2.length
      < [" ", "a@b.co"].length :=
  ⟨validate_email_list_eq, by decide, by decide⟩

end Guybaaa
